import Mathlib

/-!
# X-PLUG hotplug governor (`arch/arm64/hotplug/X-PLUG/x_plug.c`)

A shallow embedding of the governor's global state and of the functions that
act on it: the two policies, the periodic tick, the suspend / resume paths and
the touch boost.

Conventions.
* `unsigned int` values are natural numbers, reduced modulo `2^32` where the C
  arithmetic can wrap; `int` values are integers, wrapped by `wrap32`.
* The set of online cores is a finite set of core ids.
* A delayed work item is `none` when idle and `some d` when pending with a
  delay of `d` milliseconds.
* A read outside an array is a fault: the function returns `none`.
* `NR_CPUS`, `nr_cpu_ids`, `EV_KEY` and `BTN_TOUCH` come from kernel headers
  and are parameters.
* `get_average_load ()` reads the external utilisation counters; its result is
  an argument of the policy that calls it.
* The per-core records `cpuload` are kept apart from the governor state: they
  are read and written by `get_curr_load` only. The error code `EINVAL` comes
  from a kernel header and is a parameter.
* The attribute stores take the integer that `sscanf` parsed.
-/

set_option maxRecDepth 100000
set_option maxHeartbeats 4000000

namespace XPlug

/-- The enum `XPLUG_STATE`. -/
inductive XPLUG_STATE where
  | DISABLED
  | IDLE
  | DOWN
  | UP
  deriving DecidableEq, Repr

/-- Policy code `TARGET_LOAD`. -/
def TARGET_LOAD : Nat := 1

/-- Policy code `TARGET_PREDICT`. -/
def TARGET_PREDICT : Nat := 4

/-- Reduction of a natural number to an `unsigned int`. -/
def u32 (x : Nat) : Nat := x % 4294967296

/-- Unsigned 32-bit subtraction `a - b`. -/
def usub32 (a b : Nat) : Nat := (a % 4294967296 + (4294967296 - b % 4294967296)) % 4294967296

/-- Reduction of an integer to a two's complement `int`. -/
def wrap32 (x : Int) : Int := (x + 2147483648) % 4294967296 - 2147483648

/-- The file-scope variables of `x_plug.c`, the two function-local statics
(`check_count`, `cpu_load`), the online mask and the three delayed work
items. -/
structure Gov where
  isSuspended : Bool
  sample_rate : Nat
  max_cpus : Nat
  min_cpus : Nat
  touch_boost_enabled : Nat
  policy : Nat
  target_load : Nat
  dispatch_rate : Nat
  biased_down_up : Nat
  response_index : Nat
  min_target_load : Nat
  xplug_state : XPLUG_STATE
  check_count : Int
  cpu_load : List Int
  curr_index : Int
  online : Finset Nat
  xplug_work : Option Nat
  xplug_boost : Option Nat
  xplug_resume_work : Option Nat
  deriving DecidableEq

/-- The activation order `cpu_series`. -/
def cpu_series : List Nat := [0, 1, 4, 2, 3, 5]

/-- The read `cpu_series[i]` for an `int` index; `none` outside the array. -/
def cpu_series_at (i : Int) : Option Nat :=
  if 0 ≤ i then cpu_series[i.toNat]? else none

/-- Modelled from the spec: the core control surface's `bring_online`
(`cpu_up`), which is not part of the source file; it always succeeds. -/
def cpu_up (cpu : Nat) (online : Finset Nat) : Finset Nat := insert cpu online

/-- Modelled from the spec: the core control surface's `bring_offline`
(`cpu_down`), which is not part of the source file; it always succeeds. -/
def cpu_down (cpu : Nat) (online : Finset Nat) : Finset Nat := online.erase cpu

/-- Modelled from the spec: the core control surface's `is_online`
(`cpu_online`). -/
def cpu_online (cpu : Nat) (online : Finset Nat) : Bool := decide (cpu ∈ online)

/-- Modelled from the spec: `cpu_is_offline`, the negation of `is_online`. -/
def cpu_is_offline (cpu : Nat) (online : Finset Nat) : Bool := !(cpu_online cpu online)

/-- Modelled from the spec: the core control surface's `online_core_count`
(`num_online_cpus`). -/
def num_online_cpus (online : Finset Nat) : Nat := online.card

/-- Modelled from the spec: the work queue's `queue_delayed_work_on`, which is
not part of the source file. Re-arming never double-schedules: a pending item
is left as it is, an idle one becomes pending with the requested delay. -/
def queue_delayed_work_on (w : Option Nat) (delay : Nat) : Option Nat :=
  match w with
  | some d => some d
  | none => some delay

/-- The local `scaled_sampler` of `target_load_policy`:
`(sample_rate * 20 * 5) / 1000` in unsigned arithmetic, stored in an `int`. -/
def scaled_sampler (sample_rate : Nat) : Int :=
  ((u32 (u32 (sample_rate * 20) * 5) / 1000 : Nat) : Int)

/-- The update of `check_count` in `target_load_policy`, before the threshold
comparison. -/
def check_count_update (curr_load : Nat) (s : Gov) : Int :=
  if curr_load > s.target_load then
    if s.biased_down_up = 1 then wrap32 (s.check_count - (s.dispatch_rate : Int))
    else wrap32 (s.check_count - 1)
  else if curr_load < s.target_load then
    if s.biased_down_up = 0 then wrap32 (s.check_count + (s.dispatch_rate : Int))
    else wrap32 (s.check_count + 1)
  else s.check_count

/-- The function `target_load_policy`; `curr_load` is what
`get_average_load ()` returned. -/
def target_load_policy (curr_load : Nat) (s : Gov) : Gov :=
  let c := check_count_update curr_load s
  if c ≥ scaled_sampler s.sample_rate then
    { s with xplug_state := XPLUG_STATE.DOWN, check_count := 0 }
  else if c ≤ -1 * scaled_sampler s.sample_rate then
    { s with xplug_state := XPLUG_STATE.UP, check_count := 0 }
  else
    { s with xplug_state := XPLUG_STATE.IDLE, check_count := c }

/-- The statement `cpu_load[i]++`; `none` when `i` is outside the array. -/
def cpu_load_incr (h : List Int) (i : Nat) : Option (List Int) :=
  match h[i]? with
  | some v => some (h.set i (wrap32 (v + 1)))
  | none => none

/-- The first part of `target_predict_policy`: the bucket of the load, the
increment of its count and the choice of the response index. Returns the
updated histogram and the response index (before it is multiplied by 10). -/
def target_predict_select (curr_load : Nat) (h : List Int) : Option (List Int × Nat) :=
  let d := curr_load / 10
  if d = 9 ∨ d = 8 ∨ d = 10 then
    match cpu_load_incr h 8 with
    | none => none
    | some h1 =>
      match h1[7]?, h1[8]? with
      | some a, some b => some (h1, if a > b then 7 else 8)
      | _, _ => none
  else if d = 0 then
    match cpu_load_incr h 0 with
    | none => none
    | some h1 =>
      match h1[1]?, h1[0]? with
      | some a, some b => some (h1, if a > b then 1 else 0)
      | _, _ => none
  else
    match cpu_load_incr h d with
    | none => none
    | some h1 =>
      match h1[d - 1]?, h1[d]?, h1[d + 1]? with
      | some a, some b, some c =>
        some (h1, if a > b then (if a > c then d - 1 else d + 1)
                  else (if b > c then d else d + 1))
      | _, _, _ => none

/-- The function `target_predict_policy`; `load1` is the result of its own
call of `get_average_load ()`, `load2` the result of the call made by
`target_load_policy`, to which it delegates. -/
def target_predict_policy (load1 load2 : Nat) (s : Gov) : Option Gov :=
  match target_predict_select load1 s.cpu_load with
  | none => none
  | some (h1, r) =>
    let ri := u32 (r * 10)
    let t := usub32 100 ri
    let t1 := if t < s.min_target_load then s.min_target_load else t
    some (target_load_policy load2
      { s with cpu_load := h1, response_index := ri, target_load := t1 })

/-- The function `update_xplug_state`. -/
def update_xplug_state (load1 load2 : Nat) (s : Gov) : Option Gov :=
  if s.policy = TARGET_LOAD then some (target_load_policy load1 s)
  else if s.policy = TARGET_PREDICT then target_predict_policy load1 load2 s
  else some s

/-- The tail of `xplug_work_fn`: the re-arm and the core transition, for the
values of `cpu`, `up` and `sample` left by the `switch`. -/
def xplug_transition (NR_CPUS cpu : Nat) (up sample : Bool) (s : Gov) : Gov :=
  let s1 := if sample then
      { s with xplug_work := queue_delayed_work_on s.xplug_work s.sample_rate }
    else s
  if cpu < NR_CPUS then
    let s2 := if cpu ≥ s1.max_cpus then
        { s1 with online := cpu_down cpu s1.online, curr_index := wrap32 (s1.curr_index - 1) }
      else s1
    if up then
      if cpu < s2.max_cpus then { s2 with online := cpu_up cpu s2.online } else s2
    else { s2 with online := cpu_down cpu s2.online }
  else s1

/-- The function `xplug_work_fn`. The statement guarded by
`if(isSuspended)` is `mutex_lock(&xplug_work_lock);`, which does not touch the
modelled state, so the flag does not appear in the body. -/
def xplug_work_fn (NR_CPUS nr_cpu_ids load1 load2 : Nat) (s : Gov) : Option Gov :=
  match update_xplug_state load1 load2 s with
  | none => none
  | some s1 =>
    match s1.xplug_state with
    | XPLUG_STATE.DISABLED => some (xplug_transition NR_CPUS nr_cpu_ids false false s1)
    | XPLUG_STATE.IDLE => some (xplug_transition NR_CPUS nr_cpu_ids false true s1)
    | XPLUG_STATE.UP =>
      let i := wrap32 (s1.curr_index + 1)
      match cpu_series_at i with
      | none => none
      | some cpu =>
        some (xplug_transition NR_CPUS cpu true true
          { s1 with curr_index := i, xplug_state := XPLUG_STATE.IDLE })
    | XPLUG_STATE.DOWN =>
      match cpu_series_at s1.curr_index with
      | none => none
      | some cpu =>
        some (xplug_transition NR_CPUS cpu false true
          { s1 with xplug_state := XPLUG_STATE.IDLE })

/-- The loop of `offline_cpus`: for `j` from `min_cpus` to `NR_CPUS - 1`,
`if (cpu_online(j)) cpu_down(j)`. -/
def offline_loop (NR_CPUS min_cpus : Nat) (online : Finset Nat) : Finset Nat :=
  (List.range' min_cpus (NR_CPUS - min_cpus)).foldl
    (fun m j => if cpu_online j m then cpu_down j m else m) online

/-- The loop shared by `cpus_online_all` and `xplug_boost_work_fn`: for `j`
from `1` to `NR_CPUS - 1`, `if (cpu_is_offline(j)) cpu_up(j)`. -/
def online_loop (NR_CPUS : Nat) (online : Finset Nat) : Finset Nat :=
  (List.range' 1 (NR_CPUS - 1)).foldl
    (fun m j => if cpu_is_offline j m then cpu_up j m else m) online

/-- The function `offline_cpus`. -/
def offline_cpus (NR_CPUS : Nat) (s : Gov) : Gov :=
  { s with online := offline_loop NR_CPUS s.min_cpus s.online,
           curr_index := wrap32 ((s.min_cpus : Int) - 1) }

/-- The function `cpus_online_all`. -/
def cpus_online_all (NR_CPUS : Nat) (s : Gov) : Gov :=
  { s with online := online_loop NR_CPUS s.online,
           curr_index := wrap32 ((s.max_cpus : Int) - 1),
           xplug_work := queue_delayed_work_on s.xplug_work s.sample_rate }

/-- The function `xplug_suspend`. -/
def xplug_suspend (NR_CPUS : Nat) (s : Gov) : Gov := offline_cpus NR_CPUS s

/-- The function `xplug_resume`. -/
def xplug_resume (NR_CPUS : Nat) (s : Gov) : Gov := cpus_online_all NR_CPUS s

/-- The function `xplug_resume_work_fn`. -/
def xplug_resume_work_fn (NR_CPUS : Nat) (s : Gov) : Gov := xplug_resume NR_CPUS s

/-- The display events seen by `lcd_notifier_callback`; `OTHER` stands for
every value that reaches the `default` label. -/
inductive LCD_EVENT where
  | LCD_EVENT_ON_START
  | LCD_EVENT_ON_END
  | LCD_EVENT_OFF_START
  | LCD_EVENT_OFF_END
  | OTHER
  deriving DecidableEq, Repr

/-- The function `lcd_notifier_callback`. -/
def lcd_notifier_callback (NR_CPUS : Nat) (event : LCD_EVENT) (s : Gov) : Gov :=
  match event with
  | LCD_EVENT.LCD_EVENT_ON_START =>
    { s with isSuspended := false,
             xplug_resume_work := queue_delayed_work_on s.xplug_resume_work 10 }
  | LCD_EVENT.LCD_EVENT_ON_END => s
  | LCD_EVENT.LCD_EVENT_OFF_START => s
  | LCD_EVENT.LCD_EVENT_OFF_END => xplug_suspend NR_CPUS { s with isSuspended := true }
  | LCD_EVENT.OTHER => s

/-- The function `xplug_boost_work_fn`. -/
def xplug_boost_work_fn (NR_CPUS : Nat) (s : Gov) : Gov :=
  { s with online := online_loop NR_CPUS s.online }

/-- The function `xplug_input_event`. -/
def xplug_input_event (EV_KEY BTN_TOUCH : Nat) (type code : Nat) (value : Int) (s : Gov) : Gov :=
  if type = EV_KEY ∧ code = BTN_TOUCH ∧ value = 1 ∧ s.touch_boost_enabled = 1 then
    { s with xplug_boost := queue_delayed_work_on s.xplug_boost 0 }
  else s

/-- The state left by `xplug_init`: every variable at its initialiser, the
periodic tick queued with a delay of 10 ms; `online` is the set of cores that
are online when the module starts. -/
def xplug_init (online : Finset Nat) : Gov :=
  { isSuspended := false
    sample_rate := 250
    max_cpus := 6
    min_cpus := 1
    touch_boost_enabled := 1
    policy := 1
    target_load := 40
    dispatch_rate := 2
    biased_down_up := 0
    response_index := 0
    min_target_load := 50
    xplug_state := XPLUG_STATE.DISABLED
    check_count := 0
    cpu_load := [0, 0, 0, 0, 0, 0, 0, 0, 1]
    curr_index := 0
    online := online
    xplug_work := some 10
    xplug_boost := none
    xplug_resume_work := none }

/-- The entry points that change the governor: a run of the periodic tick (the
work queue clears the pending mark of a work item before it runs it), a display
event, a run of the resume task and a run of the boost task. -/
inductive Event where
  | tick (load1 load2 : Nat)
  | display (e : LCD_EVENT)
  | resume_task
  | boost_task
  deriving DecidableEq

/-- One event applied to the governor; `none` when the tick faults. -/
def step (NR_CPUS nr_cpu_ids : Nat) (e : Event) (s : Gov) : Option Gov :=
  match e with
  | Event.tick l1 l2 => xplug_work_fn NR_CPUS nr_cpu_ids l1 l2 { s with xplug_work := none }
  | Event.display ev => some (lcd_notifier_callback NR_CPUS ev s)
  | Event.resume_task => some (xplug_resume_work_fn NR_CPUS { s with xplug_resume_work := none })
  | Event.boost_task => some (xplug_boost_work_fn NR_CPUS { s with xplug_boost := none })

/-- A sequence of events applied from left to right. -/
def run (NR_CPUS nr_cpu_ids : Nat) (es : List Event) (s : Gov) : Option Gov :=
  match es with
  | [] => some s
  | e :: rest =>
    match step NR_CPUS nr_cpu_ids e s with
    | none => none
    | some s1 => run NR_CPUS nr_cpu_ids rest s1

/-- The states reachable from `s0` by events. -/
inductive Reachable (NR_CPUS nr_cpu_ids : Nat) (s0 : Gov) : Gov → Prop where
  | start : Reachable NR_CPUS nr_cpu_ids s0 s0
  | next (s s1 : Gov) (e : Event) :
      Reachable NR_CPUS nr_cpu_ids s0 s → step NR_CPUS nr_cpu_ids e s = some s1 →
      Reachable NR_CPUS nr_cpu_ids s0 s1

/-- The function `target_load_policy` run on `n` consecutive ticks, tick `k`
(counted from 0) seeing the load `loads k`. -/
def policy_ticks (loads : Nat → Nat) (n : Nat) (s : Gov) : Gov :=
  match n with
  | 0 => s
  | k + 1 => target_load_policy (loads k) (policy_ticks loads k s)

/-- The function `print_cpus_all`: for every core id below `NR_CPUS`, the
value it logs, `cpu_is_offline(cpu)?0:1`. -/
def print_cpus_all (NR_CPUS : Nat) (online : Finset Nat) : List Nat :=
  (List.range NR_CPUS).map (fun cpu => if cpu_is_offline cpu online then 0 else 1)

/-- Unsigned 64-bit subtraction `a - b`. -/
def usub64 (a b : Nat) : Nat :=
  (a % 18446744073709551616 + (18446744073709551616 - b % 18446744073709551616))
    % 18446744073709551616

/-- Conversion of an `int` to `unsigned int`. -/
def int_to_u32 (v : Int) : Nat := (v % 4294967296).toNat

/-- The fields of `struct cpu_load_data` that the file reads or writes. -/
structure cpu_load_data where
  prev_cpu_idle : Nat
  prev_cpu_wall : Nat
  last_computed_load : Nat
  deriving DecidableEq, Repr

/-- What the utilisation query surface answers for one core: the return value
of `cpufreq_get_policy` (0 on success) and the idle and wall times given by
`get_cpu_idle_time`. -/
structure CpuReading where
  ret : Int
  cur_idle_time : Nat
  cur_wall_time : Nat
  deriving DecidableEq, Repr

/-- The function `get_curr_load` for one core: the value returned and the
core's record afterwards. -/
def get_curr_load (EINVAL : Nat) (r : CpuReading) (pcpu : cpu_load_data) :
    Nat × cpu_load_data :=
  if r.ret ≠ 0 then (usub32 0 EINVAL, pcpu)
  else
    let wall_time := u32 (usub64 r.cur_wall_time pcpu.prev_cpu_wall)
    let idle_time := u32 (usub64 r.cur_idle_time pcpu.prev_cpu_idle)
    let pcpu1 : cpu_load_data :=
      { pcpu with prev_cpu_wall := r.cur_wall_time, prev_cpu_idle := r.cur_idle_time }
    if wall_time = 0 ∨ wall_time < idle_time then (0, pcpu1)
    else
      (u32 (100 * (wall_time - idle_time)) / wall_time,
        { pcpu1 with last_computed_load := u32 (100 * (wall_time - idle_time)) / wall_time })

/-- The cores visited by `for_each_online_cpu`, in increasing order. -/
def for_each_online_cpu (nr_cpu_ids : Nat) (online : Finset Nat) : List Nat :=
  (List.range nr_cpu_ids).filter (fun cpu => cpu_online cpu online)

/-- The loop of `get_average_load`: `cur_load += get_curr_load(cpu)` over the
given cores, in unsigned arithmetic, threading the per-core records. -/
def get_average_load_sum (EINVAL : Nat) (readings : Nat → CpuReading) (cpus : List Nat)
    (cur_load : Nat) (cpuload : Nat → cpu_load_data) : Nat × (Nat → cpu_load_data) :=
  match cpus with
  | [] => (cur_load, cpuload)
  | cpu :: rest =>
    get_average_load_sum EINVAL readings rest
      (u32 (cur_load + (get_curr_load EINVAL (readings cpu) (cpuload cpu)).1))
      (Function.update cpuload cpu (get_curr_load EINVAL (readings cpu) (cpuload cpu)).2)

/-- The function `get_average_load`; `none` when no core is online, where the
division `cur_load /= num_online_cpus()` is by zero. -/
def get_average_load (EINVAL nr_cpu_ids : Nat) (readings : Nat → CpuReading)
    (online : Finset Nat) (cpuload : Nat → cpu_load_data) :
    Option (Nat × (Nat → cpu_load_data)) :=
  if num_online_cpus online = 0 then none
  else
    some ((get_average_load_sum EINVAL readings (for_each_online_cpu nr_cpu_ids online)
        0 cpuload).1 / num_online_cpus online,
      (get_average_load_sum EINVAL readings (for_each_online_cpu nr_cpu_ids online)
        0 cpuload).2)

/-- The function `target_load_show`: the number printed by `"%d"`. -/
def target_load_show (s : Gov) : Int := wrap32 (s.target_load : Int)

/-- The function `target_load_store`; `val` is the integer parsed by
`sscanf`. The test `target_load >= 0` holds for every unsigned value. -/
def target_load_store (val : Int) (s : Gov) : Gov :=
  if 0 ≤ s.target_load ∧ s.target_load ≤ 100 then { s with target_load := int_to_u32 val }
  else s

/-- The function `policy_show`: the number printed by `"%d"`. -/
def policy_show (s : Gov) : Int := wrap32 (s.policy : Int)

/-- The function `policy_store`; `val` is the integer parsed by `sscanf`. -/
def policy_store (val : Int) (s : Gov) : Gov :=
  if 0 ≤ s.policy ∧ s.policy ≤ 3 then { s with policy := int_to_u32 val }
  else s

/-- The function `biased_down_up_store`; `val` is the integer parsed by
`sscanf`. -/
def biased_down_up_store (val : Int) (s : Gov) : Gov :=
  if val = 0 ∨ val = 1 then { s with biased_down_up := int_to_u32 val }
  else s

/-! ## Auxiliary facts -/

theorem mem_offline_fold (l : List Nat) (m : Finset Nat) (j : Nat) :
    j ∈ l.foldl (fun m k => if cpu_online k m then cpu_down k m else m) m ↔ j ∈ m ∧ j ∉ l := by
  induction l generalizing m with
  | nil => simp
  | cons a t ih =>
    rw [List.foldl_cons, ih]
    by_cases ha : a ∈ m
    · simp only [cpu_online, cpu_down, ha, decide_True, if_true, Finset.mem_erase, List.mem_cons,
        not_or]
      tauto
    · simp only [cpu_online, ha, decide_False, List.mem_cons, not_or]
      constructor
      · rintro ⟨h1, h2⟩
        exact ⟨h1, fun h => ha (h ▸ h1), h2⟩
      · rintro ⟨h1, _, h2⟩
        exact ⟨h1, h2⟩

theorem mem_online_fold (l : List Nat) (m : Finset Nat) (j : Nat) :
    j ∈ l.foldl (fun m k => if cpu_is_offline k m then cpu_up k m else m) m ↔ j ∈ m ∨ j ∈ l := by
  induction l generalizing m with
  | nil => simp
  | cons a t ih =>
    rw [List.foldl_cons, ih]
    by_cases ha : a ∈ m
    · simp only [cpu_is_offline, cpu_online, ha, decide_True, Bool.not_true, List.mem_cons]
      constructor
      · rintro (h | h)
        · exact Or.inl h
        · exact Or.inr (Or.inr h)
      · rintro (h | h | h)
        · exact Or.inl h
        · exact Or.inl (h ▸ ha)
        · exact Or.inr h
    · simp only [cpu_is_offline, cpu_online, cpu_up, ha, decide_False, Bool.not_false, if_true,
        Finset.mem_insert, List.mem_cons]
      tauto

theorem mem_offline_loop (NR_CPUS min_cpus : Nat) (m : Finset Nat) (j : Nat) :
    j ∈ offline_loop NR_CPUS min_cpus m ↔ j ∈ m ∧ ¬ (min_cpus ≤ j ∧ j < NR_CPUS) := by
  unfold offline_loop
  rw [mem_offline_fold, List.mem_range'_1]
  constructor
  · rintro ⟨h1, h2⟩
    exact ⟨h1, fun h => h2 ⟨h.1, by omega⟩⟩
  · rintro ⟨h1, h2⟩
    exact ⟨h1, fun h => h2 ⟨h.1, by omega⟩⟩

theorem mem_online_loop (NR_CPUS : Nat) (m : Finset Nat) (j : Nat) :
    j ∈ online_loop NR_CPUS m ↔ j ∈ m ∨ (1 ≤ j ∧ j < NR_CPUS) := by
  unfold online_loop
  rw [mem_online_fold, List.mem_range'_1]
  constructor
  · rintro (h | h)
    · exact Or.inl h
    · exact Or.inr ⟨h.1, by omega⟩
  · rintro (h | h)
    · exact Or.inl h
    · exact Or.inr ⟨h.1, by omega⟩

theorem target_load_policy_frame (l : Nat) (s : Gov) :
    (target_load_policy l s).online = s.online ∧
    (target_load_policy l s).max_cpus = s.max_cpus ∧
    (target_load_policy l s).min_cpus = s.min_cpus ∧
    (target_load_policy l s).curr_index = s.curr_index ∧
    (target_load_policy l s).xplug_work = s.xplug_work ∧
    (target_load_policy l s).sample_rate = s.sample_rate ∧
    (target_load_policy l s).target_load = s.target_load := by
  unfold target_load_policy
  simp only []
  split_ifs <;> simp

theorem update_xplug_state_frame (l1 l2 : Nat) (s s1 : Gov)
    (h : update_xplug_state l1 l2 s = some s1) :
    s1.online = s.online ∧ s1.max_cpus = s.max_cpus ∧ s1.min_cpus = s.min_cpus ∧
    s1.curr_index = s.curr_index ∧ s1.xplug_work = s.xplug_work ∧
    s1.sample_rate = s.sample_rate := by
  unfold update_xplug_state at h
  split_ifs at h with h1 h2
  · obtain ⟨a, b, c, d, e, f, _⟩ := target_load_policy_frame l1 s
    cases h
    exact ⟨a, b, c, d, e, f⟩
  · unfold target_predict_policy at h
    split at h
    · cases h
    · rename_i h1 r _
      obtain ⟨a, b, c, d, e, f, _⟩ := target_load_policy_frame l2
        { s with cpu_load := h1, response_index := u32 (r * 10),
                 target_load := if usub32 100 (u32 (r * 10)) < s.min_target_load
                   then s.min_target_load else usub32 100 (u32 (r * 10)) }
      simp only [Option.some.injEq] at h
      subst h
      exact ⟨a, b, c, d, e, f⟩
  · cases h
    exact ⟨rfl, rfl, rfl, rfl, rfl, rfl⟩

theorem xplug_transition_frame (NR_CPUS cpu : Nat) (up sample : Bool) (s : Gov) :
    (xplug_transition NR_CPUS cpu up sample s).max_cpus = s.max_cpus ∧
    (xplug_transition NR_CPUS cpu up sample s).min_cpus = s.min_cpus ∧
    ∀ c ∈ (xplug_transition NR_CPUS cpu up sample s).online, c ∈ s.online ∨ c < NR_CPUS := by
  unfold xplug_transition
  simp only []
  split_ifs <;> simp only [cpu_up, cpu_down, Finset.mem_insert, Finset.mem_erase, true_and] <;>
    intro c hc <;> first
      | exact Or.inl hc
      | exact Or.inl hc.2
      | exact Or.inl hc.2.2
      | (rcases hc with h | h
         · exact Or.inr (by omega)
         · first
            | exact Or.inl h
            | exact Or.inl h.2)

theorem xplug_work_fn_frame (NR_CPUS nr_cpu_ids l1 l2 : Nat) (s t : Gov)
    (h : xplug_work_fn NR_CPUS nr_cpu_ids l1 l2 s = some t) :
    t.max_cpus = s.max_cpus ∧ t.min_cpus = s.min_cpus ∧
    ∀ c ∈ t.online, c ∈ s.online ∨ c < NR_CPUS := by
  unfold xplug_work_fn at h
  split at h
  · cases h
  · rename_i s1 hs1
    obtain ⟨ho, hmax, hmin, _, _, _⟩ := update_xplug_state_frame l1 l2 s s1 hs1
    split at h
    · cases h
      obtain ⟨a, b, c⟩ := xplug_transition_frame NR_CPUS nr_cpu_ids false false s1
      exact ⟨a.trans hmax, b.trans hmin, fun x hx => ho ▸ c x hx⟩
    · cases h
      obtain ⟨a, b, c⟩ := xplug_transition_frame NR_CPUS nr_cpu_ids false true s1
      exact ⟨a.trans hmax, b.trans hmin, fun x hx => ho ▸ c x hx⟩
    · simp only [] at h
      split at h
      · cases h
      · rename_i cpu _
        cases h
        obtain ⟨a, b, c⟩ := xplug_transition_frame NR_CPUS cpu true true
          { s1 with curr_index := wrap32 (s1.curr_index + 1), xplug_state := XPLUG_STATE.IDLE }
        exact ⟨a.trans hmax, b.trans hmin, fun x hx => ho ▸ c x hx⟩
    · split at h
      · cases h
      · rename_i cpu _
        cases h
        obtain ⟨a, b, c⟩ := xplug_transition_frame NR_CPUS cpu false true
          { s1 with xplug_state := XPLUG_STATE.IDLE }
        exact ⟨a.trans hmax, b.trans hmin, fun x hx => ho ▸ c x hx⟩

theorem step_frame (NR_CPUS nr_cpu_ids : Nat) (e : Event) (s t : Gov)
    (h : step NR_CPUS nr_cpu_ids e s = some t) :
    t.max_cpus = s.max_cpus ∧ t.min_cpus = s.min_cpus ∧
    ∀ c ∈ t.online, c ∈ s.online ∨ c < NR_CPUS := by
  cases e with
  | tick l1 l2 =>
    exact xplug_work_fn_frame NR_CPUS nr_cpu_ids l1 l2 { s with xplug_work := none } t h
  | display ev =>
    simp only [step, Option.some.injEq] at h
    subst h
    cases ev <;>
      simp only [lcd_notifier_callback, xplug_suspend, offline_cpus, mem_offline_loop, true_and]
    all_goals first
      | exact fun c hc => Or.inl hc
      | exact fun c hc => Or.inl hc.1
  | resume_task =>
    simp only [step, Option.some.injEq] at h
    subst h
    simp only [xplug_resume_work_fn, xplug_resume, cpus_online_all, mem_online_loop, true_and]
    rintro c (hc | hc)
    · exact Or.inl hc
    · exact Or.inr hc.2
  | boost_task =>
    simp only [step, Option.some.injEq] at h
    subst h
    simp only [xplug_boost_work_fn, mem_online_loop, true_and]
    rintro c (hc | hc)
    · exact Or.inl hc
    · exact Or.inr hc.2

theorem reachable_frame (NR_CPUS nr_cpu_ids : Nat) (s0 s : Gov)
    (h0 : ∀ c ∈ s0.online, c < NR_CPUS) (hr : Reachable NR_CPUS nr_cpu_ids s0 s) :
    s.max_cpus = s0.max_cpus ∧ s.min_cpus = s0.min_cpus ∧ ∀ c ∈ s.online, c < NR_CPUS := by
  induction hr with
  | start => exact ⟨rfl, rfl, h0⟩
  | next s s1 e _ hs ih =>
    obtain ⟨a, b, c⟩ := step_frame NR_CPUS nr_cpu_ids e s s1 hs
    refine ⟨a.trans ih.1, b.trans ih.2.1, fun x hx => ?_⟩
    rcases c x hx with h | h
    · exact ih.2.2 x h
    · exact h

theorem card_le_of_lt (m : Finset Nat) (n : Nat) (h : ∀ c ∈ m, c < n) : m.card ≤ n := by
  have hsub : m ⊆ Finset.range n := fun c hc => Finset.mem_range.mpr (h c hc)
  simpa using Finset.card_le_card hsub

theorem le_card_of_lt_mem (m : Finset Nat) (n : Nat) (h : ∀ j < n, j ∈ m) : n ≤ m.card := by
  have hsub : Finset.range n ⊆ m := fun c hc => h c (Finset.mem_range.mp hc)
  simpa using Finset.card_le_card hsub

theorem wrap32_eq_self (x : Int) (h1 : -2147483648 ≤ x) (h2 : x < 2147483648) :
    wrap32 x = x := by
  unfold wrap32
  omega

theorem scaled_sampler_250 : scaled_sampler 250 = 25 := by decide

theorem target_load_policy_idle (l : Nat) (t : Gov)
    (h1 : check_count_update l t < scaled_sampler t.sample_rate)
    (h2 : -1 * scaled_sampler t.sample_rate < check_count_update l t) :
    target_load_policy l t =
      { t with xplug_state := XPLUG_STATE.IDLE, check_count := check_count_update l t } := by
  unfold target_load_policy
  simp only []
  rw [if_neg (not_le.mpr h1), if_neg (not_le.mpr h2)]

theorem target_load_policy_up (l : Nat) (t : Gov)
    (h1 : check_count_update l t < scaled_sampler t.sample_rate)
    (h2 : check_count_update l t ≤ -1 * scaled_sampler t.sample_rate) :
    target_load_policy l t = { t with xplug_state := XPLUG_STATE.UP, check_count := 0 } := by
  unfold target_load_policy
  simp only []
  rw [if_neg (not_le.mpr h1), if_pos h2]

theorem check_count_update_above (l : Nat) (t : Gov) (hl : t.target_load < l) :
    check_count_update l t =
      if t.biased_down_up = 1 then wrap32 (t.check_count - (t.dispatch_rate : Int))
      else wrap32 (t.check_count - 1) := by
  unfold check_count_update
  rw [if_pos hl]

/-- While the load stays above the target and the counter has not reached the
threshold, `n` runs of the policy take `d` off the counter each time, `d` being
the step selected by the bias. -/
theorem policy_ticks_above (loads : Nat → Nat) (s : Gov) (d : Int) (hd1 : 1 ≤ d) (hd2 : d ≤ 2)
    (hsr : s.sample_rate = 250) (hc : s.check_count = 0)
    (hd : (if s.biased_down_up = 1 then (s.dispatch_rate : Int) else 1) = d)
    (hl : ∀ k, s.target_load < loads k) (n : Nat) (hn : d * n < 25) :
    policy_ticks loads n s =
      { s with xplug_state := if n = 0 then s.xplug_state else XPLUG_STATE.IDLE,
               check_count := -(d * n) } := by
  induction n with
  | zero =>
    cases s
    simp only at hc
    simp [policy_ticks, hc]
  | succ k ih =>
    have hk : d * (k : Int) < 25 := by push_cast at hn; nlinarith
    have hk0 : 0 ≤ d * (k : Int) := by positivity
    rw [policy_ticks, ih hk]
    have hupd : check_count_update (loads k)
        { s with xplug_state := if k = 0 then s.xplug_state else XPLUG_STATE.IDLE,
                 check_count := -(d * k) } = -(d * ((k + 1 : Nat) : Int)) := by
      rw [check_count_update_above (loads k) _ (by exact hl k)]
      simp only []
      have hw : ∀ e : Int, e = d → wrap32 (-(d * k) - e) = -(d * ((k + 1 : Nat) : Int)) := by
        intro e he
        subst he
        rw [wrap32_eq_self _ (by nlinarith) (by nlinarith)]
        push_cast
        ring
      split_ifs at hd ⊢ with hb
      · exact hw _ hd
      · exact hw _ hd
    rw [target_load_policy_idle]
    · rw [hupd]
      simp
    · rw [hupd]
      simp only [hsr, scaled_sampler_250]
      push_cast at hn ⊢
      nlinarith
    · rw [hupd]
      simp only [hsr, scaled_sampler_250]
      push_cast at hn ⊢
      nlinarith

/-- The run of the policy on which the counter reaches the threshold decides
UP and resets the counter. -/
theorem policy_ticks_above_last (loads : Nat → Nat) (s : Gov) (d : Int) (hd1 : 1 ≤ d)
    (hd2 : d ≤ 2) (hsr : s.sample_rate = 250) (hc : s.check_count = 0)
    (hd : (if s.biased_down_up = 1 then (s.dispatch_rate : Int) else 1) = d)
    (hl : ∀ k, s.target_load < loads k) (n : Nat) (hn : d * n < 25)
    (hn1 : 25 ≤ d * (n + 1 : Nat)) :
    policy_ticks loads (n + 1) s = { s with xplug_state := XPLUG_STATE.UP, check_count := 0 } := by
  have hk0 : 0 ≤ d * (n : Int) := by positivity
  rw [policy_ticks, policy_ticks_above loads s d hd1 hd2 hsr hc hd hl n hn]
  have hupd : check_count_update (loads n)
      { s with xplug_state := if n = 0 then s.xplug_state else XPLUG_STATE.IDLE,
               check_count := -(d * n) } = -(d * ((n + 1 : Nat) : Int)) := by
    rw [check_count_update_above (loads n) _ (by exact hl n)]
    simp only []
    have hw : ∀ e : Int, e = d → wrap32 (-(d * n) - e) = -(d * ((n + 1 : Nat) : Int)) := by
      intro e he
      subst he
      rw [wrap32_eq_self _ (by nlinarith) (by nlinarith)]
      push_cast
      ring
    split_ifs at hd ⊢ with hb
    · exact hw _ hd
    · exact hw _ hd
  rw [target_load_policy_up]
  · rw [hupd]
    simp only [hsr, scaled_sampler_250]
    push_cast at hn1 ⊢
    nlinarith
  · rw [hupd]
    simp only [hsr, scaled_sampler_250]
    push_cast at hn1 ⊢
    nlinarith

theorem list_of_length_nine (h : List Int) (hh : h.length = 9) :
    ∃ a0 a1 a2 a3 a4 a5 a6 a7 a8, h = [a0, a1, a2, a3, a4, a5, a6, a7, a8] := by
  match h, hh with
  | [a0, a1, a2, a3, a4, a5, a6, a7, a8], _ => exact ⟨a0, a1, a2, a3, a4, a5, a6, a7, a8, rfl⟩

/-- For a load in `0..100` and a nine-bucket histogram the selection reads
inside the array and picks a response index in `0..8`. -/
theorem target_predict_select_some (load : Nat) (h : List Int) (hl : load ≤ 100)
    (hh : h.length = 9) :
    ∃ h1 r, target_predict_select load h = some (h1, r) ∧ r ≤ 8 ∧ h1.length = 9 := by
  obtain ⟨a0, a1, a2, a3, a4, a5, a6, a7, a8, rfl⟩ := list_of_length_nine h hh
  have hd : load / 10 ≤ 10 := by omega
  unfold target_predict_select
  generalize load / 10 = d at hd
  interval_cases d <;> simp [cpu_load_incr] <;> split_ifs <;>
    exact ⟨_, _, ⟨rfl, rfl⟩, by norm_num, rfl⟩

theorem usub32_100 (r : Nat) (hr : r ≤ 8) : usub32 100 (u32 (r * 10)) = 100 - 10 * r := by
  unfold usub32 u32
  omega

theorem get_curr_load_ok_le (EINVAL : Nat) (r : CpuReading) (pcpu : cpu_load_data)
    (hret : r.ret = 0) : (get_curr_load EINVAL r pcpu).1 ≤ 100 := by
  unfold get_curr_load
  rw [if_neg (by simp [hret])]
  simp only []
  split_ifs with h
  · exact Nat.zero_le _
  · push_neg at h
    apply Nat.div_le_of_le_mul
    unfold u32 at *
    omega

theorem get_average_load_sum_le (EINVAL : Nat) (readings : Nat → CpuReading) (cpus : List Nat)
    (hok : ∀ c ∈ cpus, (readings c).ret = 0) (cur_load : Nat) (cpuload : Nat → cpu_load_data) :
    (get_average_load_sum EINVAL readings cpus cur_load cpuload).1
      ≤ cur_load + 100 * cpus.length := by
  induction cpus generalizing cur_load cpuload with
  | nil => simp [get_average_load_sum]
  | cons cpu rest ih =>
    rw [get_average_load_sum]
    have h1 := ih (fun c hc => hok c (List.mem_cons_of_mem cpu hc))
      (u32 (cur_load + (get_curr_load EINVAL (readings cpu) (cpuload cpu)).1))
      (Function.update cpuload cpu (get_curr_load EINVAL (readings cpu) (cpuload cpu)).2)
    have h2 := get_curr_load_ok_le EINVAL (readings cpu) (cpuload cpu)
      (hok cpu (List.mem_cons_self cpu rest))
    have h3 : u32 (cur_load + (get_curr_load EINVAL (readings cpu) (cpuload cpu)).1)
        ≤ cur_load + (get_curr_load EINVAL (readings cpu) (cpuload cpu)).1 := by
      unfold u32
      exact Nat.mod_le _ _
    simp only [List.length_cons]
    omega

theorem for_each_online_cpu_length (nr_cpu_ids : Nat) (online : Finset Nat) :
    (for_each_online_cpu nr_cpu_ids online).length ≤ num_online_cpus online := by
  unfold for_each_online_cpu num_online_cpus
  have hnd : ((List.range nr_cpu_ids).filter (fun cpu => cpu_online cpu online)).Nodup :=
    (List.nodup_range nr_cpu_ids).filter _
  rw [← List.toFinset_card_of_nodup hnd]
  apply Finset.card_le_card
  intro c hc
  simp only [List.mem_toFinset, List.mem_filter, cpu_online, decide_eq_true_eq] at hc
  exact hc.2

theorem mem_for_each_online_cpu (nr_cpu_ids : Nat) (online : Finset Nat) (c : Nat)
    (hc : c ∈ for_each_online_cpu nr_cpu_ids online) : c ∈ online := by
  unfold for_each_online_cpu at hc
  simp only [List.mem_filter, cpu_online, decide_eq_true_eq] at hc
  exact hc.2

theorem wrap32_congr (x : Int) :
    (wrap32 x - x) % 4294967296 = 0 ∧ -2147483648 ≤ wrap32 x ∧ wrap32 x < 2147483648 := by
  unfold wrap32
  omega

theorem target_load_policy_down (l : Nat) (t : Gov)
    (h : scaled_sampler t.sample_rate ≤ check_count_update l t) :
    target_load_policy l t = { t with xplug_state := XPLUG_STATE.DOWN, check_count := 0 } := by
  unfold target_load_policy
  simp only []
  rw [if_pos (ge_iff_le.mpr h)]

theorem scaled_sampler_eq (sample_rate : Nat) (h : sample_rate * 100 < 4294967296) :
    scaled_sampler sample_rate = ((sample_rate * 100 / 1000 : Nat) : Int) := by
  unfold scaled_sampler u32
  congr 1
  omega

theorem xplug_transition_new_online (NR_CPUS cpu : Nat) (up sample : Bool) (s : Gov) :
    ∀ x ∈ (xplug_transition NR_CPUS cpu up sample s).online, x ∉ s.online → x < s.max_cpus := by
  unfold xplug_transition
  simp only []
  split_ifs <;> (try simp only [cpu_up, cpu_down, Finset.mem_insert, Finset.mem_erase]) <;>
    intro x hx hnot <;> first
      | exact absurd hx hnot
      | exact absurd hx.2 hnot
      | exact absurd hx.2.2 hnot
      | (rcases hx with h | h
         · rw [h]
           assumption
         · first
            | exact absurd h hnot
            | exact absurd h.2 hnot)

theorem xplug_work_fn_new_online (NR_CPUS nr_cpu_ids l1 l2 : Nat) (s t : Gov)
    (h : xplug_work_fn NR_CPUS nr_cpu_ids l1 l2 s = some t) :
    ∀ x ∈ t.online, x ∉ s.online → x < s.max_cpus := by
  unfold xplug_work_fn at h
  split at h
  · cases h
  · rename_i s1 hs1
    obtain ⟨ho, hmax, _, _, _, _⟩ := update_xplug_state_frame l1 l2 s s1 hs1
    split at h
    · cases h
      intro x hx hnot
      have := xplug_transition_new_online NR_CPUS nr_cpu_ids false false s1 x hx (ho ▸ hnot)
      exact hmax ▸ this
    · cases h
      intro x hx hnot
      have := xplug_transition_new_online NR_CPUS nr_cpu_ids false true s1 x hx (ho ▸ hnot)
      exact hmax ▸ this
    · simp only [] at h
      split at h
      · cases h
      · rename_i cpu _
        cases h
        intro x hx hnot
        have := xplug_transition_new_online NR_CPUS cpu true true
          { s1 with curr_index := wrap32 (s1.curr_index + 1), xplug_state := XPLUG_STATE.IDLE }
          x hx (ho ▸ hnot)
        exact hmax ▸ this
    · split at h
      · cases h
      · rename_i cpu _
        cases h
        intro x hx hnot
        have := xplug_transition_new_online NR_CPUS cpu false true
          { s1 with xplug_state := XPLUG_STATE.IDLE } x hx (ho ▸ hnot)
        exact hmax ▸ this

theorem cpu_series_at_some (i : Int) (c : Nat) (h : cpu_series_at i = some c) :
    0 ≤ i ∧ i < 6 ∧ c < 6 := by
  unfold cpu_series_at at h
  split_ifs at h with h0
  have hmem : c ∈ cpu_series := List.getElem?_mem h
  obtain ⟨hlt, _⟩ := List.getElem?_eq_some.mp h
  have hlen : cpu_series.length = 6 := rfl
  have hall : ∀ x ∈ cpu_series, x < 6 := by decide
  refine ⟨h0, ?_, hall c hmem⟩
  omega

theorem xplug_transition_online (NR_CPUS cpu : Nat) (up sample : Bool) (s : Gov) :
    (xplug_transition NR_CPUS cpu up sample s).online =
      if cpu < NR_CPUS then
        if s.max_cpus ≤ cpu then cpu_down cpu s.online
        else if up then cpu_up cpu s.online else cpu_down cpu s.online
      else s.online := by
  unfold xplug_transition
  cases sample <;> cases up <;> by_cases h1 : cpu < NR_CPUS <;>
    by_cases h2 : s.max_cpus ≤ cpu <;>
    simp [h1, h2, cpu_down, cpu_up, Finset.erase_idem, not_lt.mpr, not_le.mp]

theorem xplug_transition_online_cases (NR_CPUS cpu : Nat) (up sample : Bool) (s : Gov) :
    (xplug_transition NR_CPUS cpu up sample s).online = s.online ∨
    (xplug_transition NR_CPUS cpu up sample s).online = cpu_down cpu s.online ∨
    ((xplug_transition NR_CPUS cpu up sample s).online = cpu_up cpu s.online ∧
      cpu < s.max_cpus) := by
  rw [xplug_transition_online]
  split_ifs with h1 h2 h3
  · exact Or.inr (Or.inl rfl)
  · exact Or.inr (Or.inr ⟨rfl, not_le.mp h2⟩)
  · exact Or.inr (Or.inl rfl)
  · exact Or.inl rfl

theorem online_cases_transport (n m1 m : Finset Nat) (k1 k cpu : Nat) (ho : m1 = m)
    (hk : k1 = k)
    (h : n = m1 ∨ n = cpu_down cpu m1 ∨ (n = cpu_up cpu m1 ∧ cpu < k1)) :
    n = m ∨ n = cpu_down cpu m ∨ (n = cpu_up cpu m ∧ cpu < k) := by
  subst ho hk
  exact h

theorem xplug_work_fn_online_cases (NR_CPUS nr_cpu_ids l1 l2 : Nat) (s t : Gov)
    (h : xplug_work_fn NR_CPUS nr_cpu_ids l1 l2 s = some t) :
    ∃ cpu, t.online = s.online ∨ t.online = cpu_down cpu s.online ∨
      (t.online = cpu_up cpu s.online ∧ cpu < s.max_cpus) := by
  unfold xplug_work_fn at h
  split at h
  · cases h
  · rename_i s1 hs1
    obtain ⟨ho, hmax, _, _, _, _⟩ := update_xplug_state_frame l1 l2 s s1 hs1
    split at h
    · cases h
      exact ⟨nr_cpu_ids, online_cases_transport _ _ _ _ _ _ ho hmax
        (xplug_transition_online_cases NR_CPUS nr_cpu_ids false false s1)⟩
    · cases h
      exact ⟨nr_cpu_ids, online_cases_transport _ _ _ _ _ _ ho hmax
        (xplug_transition_online_cases NR_CPUS nr_cpu_ids false true s1)⟩
    · simp only [] at h
      split at h
      · cases h
      · rename_i cpu _
        cases h
        exact ⟨cpu, online_cases_transport _ _ _ _ _ _ ho hmax
          (xplug_transition_online_cases NR_CPUS cpu true true
            { s1 with curr_index := wrap32 (s1.curr_index + 1),
                      xplug_state := XPLUG_STATE.IDLE })⟩
    · split at h
      · cases h
      · rename_i cpu _
        cases h
        exact ⟨cpu, online_cases_transport _ _ _ _ _ _ ho hmax
          (xplug_transition_online_cases NR_CPUS cpu false true
            { s1 with xplug_state := XPLUG_STATE.IDLE })⟩

theorem card_of_online_cases (m n : Finset Nat) (cpu : Nat)
    (h : n = m ∨ n = cpu_down cpu m ∨ n = cpu_up cpu m) :
    m.card ≤ n.card + 1 ∧ n.card ≤ m.card + 1 := by
  rcases h with h | h | h
  · rw [h]
    exact ⟨Nat.le_succ _, Nat.le_succ _⟩
  · rw [h]
    unfold cpu_down
    have h1 := Finset.pred_card_le_card_erase (s := m) (a := cpu)
    have h2 := Finset.card_erase_le (s := m) (a := cpu)
    omega
  · rw [h]
    unfold cpu_up
    have h1 := Finset.card_insert_le cpu m
    have h2 := Finset.card_le_card (Finset.subset_insert cpu m)
    omega

theorem online_loop_card (NR_CPUS : Nat) (m : Finset Nat) (hwf : ∀ c ∈ m, c < NR_CPUS) :
    (0 ∈ m → (online_loop NR_CPUS m).card = NR_CPUS) ∧
    (0 ∉ m → (online_loop NR_CPUS m).card = NR_CPUS - 1) := by
  constructor
  · intro hz
    have hset : online_loop NR_CPUS m = Finset.range NR_CPUS := by
      ext j
      rw [mem_online_loop, Finset.mem_range]
      constructor
      · rintro (h | h)
        · exact hwf j h
        · exact h.2
      · intro hj
        by_cases hj0 : j = 0
        · exact Or.inl (hj0 ▸ hz)
        · exact Or.inr ⟨by omega, hj⟩
    rw [hset, Finset.card_range]
  · intro hz
    have hset : online_loop NR_CPUS m = Finset.Ico 1 NR_CPUS := by
      ext j
      rw [mem_online_loop, Finset.mem_Ico]
      constructor
      · rintro (h | h)
        · have hj0 : j ≠ 0 := fun h0 => hz (h0 ▸ h)
          exact ⟨by omega, hwf j h⟩
        · exact h
      · intro hj
        exact Or.inr hj
    rw [hset, Nat.card_Ico]

theorem offline_loop_card (NR_CPUS min_cpus : Nat) (m : Finset Nat)
    (hwf : ∀ c ∈ m, c < NR_CPUS) :
    (offline_loop NR_CPUS min_cpus m).card ≤ min_cpus ∧
    ((∀ j < min_cpus, j ∈ m) → (offline_loop NR_CPUS min_cpus m).card = min_cpus) := by
  have hle : (offline_loop NR_CPUS min_cpus m).card ≤ min_cpus := by
    apply card_le_of_lt
    intro c hc
    rw [mem_offline_loop] at hc
    have := hwf c hc.1
    by_contra hge
    exact hc.2 ⟨by omega, this⟩
  refine ⟨hle, fun hlow => le_antisymm hle ?_⟩
  apply le_card_of_lt_mem
  intro j hj
  rw [mem_offline_loop]
  exact ⟨hlow j hj, fun h => by omega⟩

/-! ## The periodic tick -/

/-- C1 (the code departs from the claim): the tick is not skipped while the
suspend flag is set. With the default configuration and six cores online, 24
ticks at load 100 followed by the display-off event leave the governor
suspended with core 0 alone online, index 0 and counter -24; the next tick at
load 100 evaluates the policy (the counter crosses -25 and is reset), moves the
index to 1, brings core 1 online and re-arms itself at 250 ms. -/
theorem suspended_tick_not_skipped :
    (run 6 6 (List.replicate 24 (Event.tick 100 0) ++ [Event.display LCD_EVENT.LCD_EVENT_OFF_END])
      (xplug_init {0, 1, 2, 3, 4, 5})).map
        (fun s => (s.isSuspended, s.check_count, s.curr_index, print_cpus_all 6 s.online,
          s.xplug_work.isSome))
      = some (true, -24, 0, [1, 0, 0, 0, 0, 0], true) ∧
    (run 6 6 (List.replicate 24 (Event.tick 100 0) ++ [Event.display LCD_EVENT.LCD_EVENT_OFF_END,
      Event.tick 100 0]) (xplug_init {0, 1, 2, 3, 4, 5})).map
        (fun s => (s.isSuspended, s.check_count, s.curr_index, print_cpus_all 6 s.online,
          s.xplug_work))
      = some (true, 0, 1, [1, 1, 0, 0, 0, 0], some 250) := by
  constructor <;> decide

/-- C2 (the claim fails as stated): two runs that leave the online count
outside `[min_cpus, max_cpus]`. With the default configuration, core 0 alone
online and index 0, thirteen ticks at load 0 end in a DOWN decision that takes
core `cpu_series[0] = 0` offline, so no core is online although `min_cpus` is 1.
With `NR_CPUS = 8` and six cores online the boost task leaves eight cores
online although `max_cpus` is 6. -/
theorem online_count_leaves_bounds :
    ((xplug_init {0}).curr_index = 0 ∧ num_online_cpus (xplug_init {0}).online = 1) ∧
    (run 6 6 (List.replicate 13 (Event.tick 0 0)) (xplug_init {0})).map
      (fun s => (num_online_cpus s.online, s.min_cpus)) = some (0, 1) ∧
    (run 8 8 [Event.boost_task] (xplug_init {0, 1, 2, 3, 4, 5})).map
      (fun s => (num_online_cpus s.online, s.max_cpus)) = some (8, 6) := by
  refine ⟨⟨?_, ?_⟩, ?_, ?_⟩ <;> decide

/-- C2 (amended): for every state reachable from a start state whose online
cores all have ids below `NR_CPUS`, and every event that completes:
* `min_cpus` and `max_cpus` are those of the start, every online core has an id
  below `NR_CPUS`, so at most `NR_CPUS` cores are online, hence at most
  `max_cpus` when `NR_CPUS ≤ max_cpus`;
* a tick changes the online count by at most one and brings online only a core
  whose id is below `max_cpus`: afterwards at least `min_cpus` cores are online
  whenever more than `min_cpus` were before, and, whatever `NR_CPUS` is, every
  online core has an id below `max_cpus` (so at most `max_cpus` are online)
  whenever that was so before;
* a display event brings no core online; only display-off changes the set, and
  after it at most `min_cpus` cores are online, exactly `min_cpus` when the
  cores `0 .. min_cpus - 1` were online before;
* after the resume task or the boost task `NR_CPUS` cores are online when core
  0 was online before and `NR_CPUS - 1` otherwise, so at least `min_cpus` from
  any state when `min_cpus ≤ NR_CPUS - 1`;
* every event other than a tick leaves at least `min_cpus` cores online when
  the cores `0 .. min_cpus - 1` were online before it. -/
theorem online_count_after_event (NR_CPUS nr_cpu_ids : Nat) (s0 s t : Gov) (e : Event)
    (h0 : ∀ c ∈ s0.online, c < NR_CPUS)
    (hr : Reachable NR_CPUS nr_cpu_ids s0 s) (hs : step NR_CPUS nr_cpu_ids e s = some t) :
    (t.max_cpus = s0.max_cpus ∧ t.min_cpus = s0.min_cpus ∧
      (∀ c ∈ t.online, c < NR_CPUS) ∧ num_online_cpus t.online ≤ NR_CPUS ∧
      (NR_CPUS ≤ t.max_cpus → num_online_cpus t.online ≤ t.max_cpus)) ∧
    (∀ l1 l2, e = Event.tick l1 l2 →
      num_online_cpus s.online ≤ num_online_cpus t.online + 1 ∧
      num_online_cpus t.online ≤ num_online_cpus s.online + 1 ∧
      (∀ x ∈ t.online, x ∉ s.online → x < t.max_cpus) ∧
      (t.min_cpus < num_online_cpus s.online → t.min_cpus ≤ num_online_cpus t.online) ∧
      ((∀ c ∈ s.online, c < t.max_cpus) →
        (∀ c ∈ t.online, c < t.max_cpus) ∧ num_online_cpus t.online ≤ t.max_cpus)) ∧
    (∀ ev, e = Event.display ev →
      t.online ⊆ s.online ∧
      (ev ≠ LCD_EVENT.LCD_EVENT_OFF_END → t.online = s.online) ∧
      (ev = LCD_EVENT.LCD_EVENT_OFF_END →
        num_online_cpus t.online ≤ t.min_cpus ∧
        ((∀ j < t.min_cpus, j ∈ s.online) → num_online_cpus t.online = t.min_cpus))) ∧
    (e = Event.resume_task ∨ e = Event.boost_task →
      NR_CPUS - 1 ≤ num_online_cpus t.online ∧
      (0 ∈ s.online → num_online_cpus t.online = NR_CPUS) ∧
      (0 ∉ s.online → num_online_cpus t.online = NR_CPUS - 1) ∧
      (t.min_cpus ≤ NR_CPUS - 1 → t.min_cpus ≤ num_online_cpus t.online)) ∧
    ((∀ l1 l2, e ≠ Event.tick l1 l2) → (∀ j < t.min_cpus, j ∈ s.online) →
      t.min_cpus ≤ num_online_cpus t.online) := by
  obtain ⟨hmaxs, hmins, hlts⟩ := reachable_frame NR_CPUS nr_cpu_ids s0 s h0 hr
  obtain ⟨hmaxt, hmint, hltt⟩ := reachable_frame NR_CPUS nr_cpu_ids s0 t h0
    (Reachable.next s t e hr hs)
  have hmx : t.max_cpus = s.max_cpus := hmaxt.trans hmaxs.symm
  have hmn : t.min_cpus = s.min_cpus := hmint.trans hmins.symm
  have hcard : num_online_cpus t.online ≤ NR_CPUS := card_le_of_lt t.online NR_CPUS hltt
  have hloop : ∀ u : Gov, u.online = online_loop NR_CPUS s.online → u.min_cpus = s.min_cpus →
      NR_CPUS - 1 ≤ num_online_cpus u.online ∧
      (0 ∈ s.online → num_online_cpus u.online = NR_CPUS) ∧
      (0 ∉ s.online → num_online_cpus u.online = NR_CPUS - 1) ∧
      (u.min_cpus ≤ NR_CPUS - 1 → u.min_cpus ≤ num_online_cpus u.online) ∧
      ((∀ j < u.min_cpus, j ∈ s.online) → u.min_cpus ≤ num_online_cpus u.online) := by
    intro u hu _
    obtain ⟨hc1, hc2⟩ := online_loop_card NR_CPUS s.online hlts
    have hge : NR_CPUS - 1 ≤ num_online_cpus u.online := by
      unfold num_online_cpus
      rw [hu]
      by_cases hz : 0 ∈ s.online
      · rw [hc1 hz]
        exact Nat.sub_le _ _
      · rw [hc2 hz]
    refine ⟨hge, ?_, ?_, fun h => le_trans h hge, ?_⟩
    · intro hz
      unfold num_online_cpus
      rw [hu]
      exact hc1 hz
    · intro hz
      unfold num_online_cpus
      rw [hu]
      exact hc2 hz
    · intro hlow
      apply le_card_of_lt_mem
      intro j hj
      rw [hu, mem_online_loop]
      exact Or.inl (hlow j hj)
  refine ⟨⟨hmaxt, hmint, hltt, hcard, fun h => le_trans hcard h⟩, ?_, ?_, ?_, ?_⟩
  · intro l1 l2 he
    subst he
    have hs1 : xplug_work_fn NR_CPUS nr_cpu_ids l1 l2 { s with xplug_work := none } = some t := hs
    obtain ⟨cpu, hcases⟩ := xplug_work_fn_online_cases NR_CPUS nr_cpu_ids l1 l2 _ t hs1
    have hnew : ∀ x ∈ t.online, x ∉ s.online → x < t.max_cpus := by
      intro x hx hnot
      rw [hmx]
      exact xplug_work_fn_new_online NR_CPUS nr_cpu_ids l1 l2 _ t hs1 x hx hnot
    have hc := card_of_online_cases s.online t.online cpu
      (by rcases hcases with h | h | h
          · exact Or.inl h
          · exact Or.inr (Or.inl h)
          · exact Or.inr (Or.inr h.1))
    have hinv : (∀ c ∈ s.online, c < t.max_cpus) → ∀ c ∈ t.online, c < t.max_cpus := by
      intro hall c hc
      by_cases hmem : c ∈ s.online
      · exact hall c hmem
      · exact hnew c hc hmem
    refine ⟨hc.1, hc.2, hnew, ?_, fun hall => ⟨hinv hall, card_le_of_lt _ _ (hinv hall)⟩⟩
    intro hgt
    unfold num_online_cpus at *
    omega
  · intro ev he
    subst he
    simp only [step, Option.some.injEq] at hs
    subst hs
    cases ev
    case LCD_EVENT_OFF_END =>
      obtain ⟨hle, heq⟩ := offline_loop_card NR_CPUS s.min_cpus s.online hlts
      refine ⟨?_, fun h => absurd rfl h, fun _ => ⟨hle, heq⟩⟩
      intro c hc
      exact ((mem_offline_loop NR_CPUS s.min_cpus s.online c).mp hc).1
    all_goals
      exact ⟨Finset.Subset.refl _, fun _ => rfl, fun h => by cases h⟩
  · intro he
    rcases he with he | he
    · subst he
      simp only [step, Option.some.injEq] at hs
      subst hs
      obtain ⟨a, b, c, d, _⟩ := hloop
        (xplug_resume_work_fn NR_CPUS { s with xplug_resume_work := none }) rfl rfl
      exact ⟨a, b, c, d⟩
    · subst he
      simp only [step, Option.some.injEq] at hs
      subst hs
      obtain ⟨a, b, c, d, _⟩ := hloop
        (xplug_boost_work_fn NR_CPUS { s with xplug_boost := none }) rfl rfl
      exact ⟨a, b, c, d⟩
  · intro hne hlow
    cases e with
    | tick l1 l2 => exact absurd rfl (hne l1 l2)
    | display ev =>
      simp only [step, Option.some.injEq] at hs
      subst hs
      apply le_card_of_lt_mem
      cases ev <;>
        simp only [lcd_notifier_callback, xplug_suspend, offline_cpus, mem_offline_loop]
          at hlow ⊢
      all_goals first
        | exact hlow
        | exact fun j hj => ⟨hlow j hj, fun h => by omega⟩
    | resume_task =>
      simp only [step, Option.some.injEq] at hs
      subst hs
      exact (hloop (xplug_resume_work_fn NR_CPUS { s with xplug_resume_work := none })
        rfl rfl).2.2.2.2 hlow
    | boost_task =>
      simp only [step, Option.some.injEq] at hs
      subst hs
      exact (hloop (xplug_boost_work_fn NR_CPUS { s with xplug_boost := none })
        rfl rfl).2.2.2.2 hlow

/-- Witness of `online_count_after_event`, at three events of the default
configuration with `NR_CPUS = 6`: the boost task from the state with no core
online leaves `6 - 1` cores online; the display-off event from six cores online
leaves exactly `min_cpus` cores online; a tick at load 100 from six cores
online leaves at most `max_cpus` cores online. -/
theorem online_count_after_event_witness :
    num_online_cpus (xplug_boost_work_fn 6 { xplug_init ∅ with xplug_boost := none }).online
      = 6 - 1 ∧
    num_online_cpus (lcd_notifier_callback 6 LCD_EVENT.LCD_EVENT_OFF_END
        (xplug_init (Finset.range 6))).online
      = (lcd_notifier_callback 6 LCD_EVENT.LCD_EVENT_OFF_END
        (xplug_init (Finset.range 6))).min_cpus ∧
    num_online_cpus (xplug_transition 6 6 false true (target_load_policy 100
        { xplug_init (Finset.range 6) with xplug_work := none })).online
      ≤ (xplug_transition 6 6 false true (target_load_policy 100
        { xplug_init (Finset.range 6) with xplug_work := none })).max_cpus :=
  ⟨((online_count_after_event 6 6 (xplug_init ∅) (xplug_init ∅)
        (xplug_boost_work_fn 6 { xplug_init ∅ with xplug_boost := none }) Event.boost_task
        (fun c hc => absurd hc (Finset.not_mem_empty c)) Reachable.start rfl).2.2.2.1
        (Or.inr rfl)).2.2.1 (by decide),
   (((online_count_after_event 6 6 (xplug_init (Finset.range 6)) (xplug_init (Finset.range 6))
        (lcd_notifier_callback 6 LCD_EVENT.LCD_EVENT_OFF_END (xplug_init (Finset.range 6)))
        (Event.display LCD_EVENT.LCD_EVENT_OFF_END)
        (fun _ hc => Finset.mem_range.mp hc) Reachable.start rfl).2.2.1
        LCD_EVENT.LCD_EVENT_OFF_END rfl).2.2 rfl).2 (by decide),
   (((online_count_after_event 6 6 (xplug_init (Finset.range 6)) (xplug_init (Finset.range 6))
        (xplug_transition 6 6 false true (target_load_policy 100
          { xplug_init (Finset.range 6) with xplug_work := none }))
        (Event.tick 100 0)
        (fun _ hc => Finset.mem_range.mp hc) Reachable.start (by rfl)).2.1
        100 0 rfl).2.2.2.2 (by decide)).2⟩

/-- C3 (the claim fails as stated): with the default configuration, core 0
alone online (exactly `min_cpus = 1` core), index 0 and counter 24, a tick at
load 0 decides DOWN and takes core `cpu_series[0] = 0` offline: no core is
online afterwards. -/
theorem down_tick_goes_below_min_cpus :
    num_online_cpus ({ xplug_init {0} with check_count := 24 } : Gov).online
      = ({ xplug_init {0} with check_count := 24 } : Gov).min_cpus ∧
    (update_xplug_state 0 0 { xplug_init {0} with check_count := 24 }).map
      (fun s => s.xplug_state) = some XPLUG_STATE.DOWN ∧
    (xplug_work_fn 6 6 0 0 { xplug_init {0} with check_count := 24 }).map
      (fun s => (print_cpus_all 6 s.online, num_online_cpus s.online))
      = some ([0, 0, 0, 0, 0, 0], 0) := by
  refine ⟨?_, ?_, ?_⟩ <;> decide

/-- C3 (amended): a tick whose policy decision is DOWN and whose read
`c = cpu_series[curr_index]` is a core id below `NR_CPUS` completes and takes
core `c` offline without consulting `min_cpus` or the online count: the online
set afterwards is the prior one without `c`, and the count drops by one exactly
when `c` was online. -/
theorem down_tick_takes_core_offline (NR_CPUS nr_cpu_ids l1 l2 : Nat) (s s1 : Gov) (c : Nat)
    (hpol : update_xplug_state l1 l2 s = some s1) (hd : s1.xplug_state = XPLUG_STATE.DOWN)
    (hc : cpu_series_at s.curr_index = some c) (hlt : c < NR_CPUS) :
    ∃ t, xplug_work_fn NR_CPUS nr_cpu_ids l1 l2 s = some t ∧
      t.online = cpu_down c s.online ∧
      num_online_cpus t.online = num_online_cpus s.online - (if c ∈ s.online then 1 else 0) := by
  obtain ⟨ho, _, _, hi, _, _⟩ := update_xplug_state_frame l1 l2 s s1 hpol
  have hon : (xplug_transition NR_CPUS c false true
      { s1 with xplug_state := XPLUG_STATE.IDLE }).online = cpu_down c s.online := by
    unfold xplug_transition
    simp only [hlt, if_true, ho, Bool.false_eq_true, if_false]
    split_ifs <;> simp [cpu_down]
  refine ⟨xplug_transition NR_CPUS c false true { s1 with xplug_state := XPLUG_STATE.IDLE },
    ?_, hon, ?_⟩
  · unfold xplug_work_fn
    simp only [hpol, hd, hi, hc]
  · rw [hon]
    unfold num_online_cpus cpu_down
    split_ifs with hmem
    · exact Finset.card_erase_of_mem hmem
    · rw [Finset.erase_eq_of_not_mem hmem]
      rfl

/-- Witness of `down_tick_takes_core_offline`: the default configuration with
core 0 alone online, index 0 and counter 24, at load 0. -/
theorem down_tick_takes_core_offline_witness :
    ∃ t, xplug_work_fn 6 6 0 0 { xplug_init {0} with check_count := 24 } = some t ∧
      t.online = cpu_down 0 ({ xplug_init {0} with check_count := 24 } : Gov).online ∧
      num_online_cpus t.online
        = num_online_cpus ({ xplug_init {0} with check_count := 24 } : Gov).online
          - (if 0 ∈ ({ xplug_init {0} with check_count := 24 } : Gov).online then 1 else 0) :=
  down_tick_takes_core_offline 6 6 0 0 { xplug_init {0} with check_count := 24 }
    (target_load_policy 0 { xplug_init {0} with check_count := 24 }) 0
    (by rfl) (by decide) (by decide) (by decide)

/-- C4 (the code departs from the claim): the activation index leaves `[0, 5]`
and `cpu_series` is read outside its bounds. With the default configuration and
six cores online, display-off, display-on and the resume task put the index at
`max_cpus - 1 = 5`; after 24 ticks at load 100 the index is still 5 and the
counter is -24; on the next tick at load 100 the decision is UP, the index is
advanced to 6 and the read `cpu_series[6]` is outside the six-element array.
The same happens without any display event after 150 ticks at load 100. -/
theorem up_tick_reads_past_cpu_series :
    (run 6 6 ([Event.display LCD_EVENT.LCD_EVENT_OFF_END,
        Event.display LCD_EVENT.LCD_EVENT_ON_START, Event.resume_task]
        ++ List.replicate 24 (Event.tick 100 0)) (xplug_init {0, 1, 2, 3, 4, 5})).map
      (fun s => (s.curr_index, s.check_count, wrap32 (s.curr_index + 1),
        (step 6 6 (Event.tick 100 0) s).isNone))
      = some (5, -24, 6, true) ∧
    (run 6 6 ([Event.display LCD_EVENT.LCD_EVENT_OFF_END,
        Event.display LCD_EVENT.LCD_EVENT_ON_START, Event.resume_task]
        ++ List.replicate 24 (Event.tick 100 0)) (xplug_init {0, 1, 2, 3, 4, 5})).map
      (fun s => ((update_xplug_state 100 0 { s with xplug_work := none }).map
          (fun s1 => s1.xplug_state),
        cpu_series_at (wrap32 (s.curr_index + 1))))
      = some (some XPLUG_STATE.UP, none) ∧
    (run 6 6 (List.replicate 149 (Event.tick 100 0)) (xplug_init {0, 1, 2, 3, 4, 5})).map
      (fun s => (s.curr_index, s.check_count, (step 6 6 (Event.tick 100 0) s).isNone))
      = some (5, -24, true) := by
  refine ⟨?_, ?_, ?_⟩ <;> decide

/-! ## ThresholdHysteresis -/

/-- C5 (the claim fails as stated): with `dispatch_rate = 2`,
`biased_down_up = 1`, `sample_rate = 250`, counter 0, target 40 and load 100 on
every tick, the counter is -2 (not -1) after the first tick, the decision on
tick 13 is UP, and the decision on tick 25 is IDLE (not DOWN) with the counter
at -24. -/
theorem online_faster_not_down_on_tick_25 :
    (policy_ticks (fun _ => 100) 1 { xplug_init {0} with biased_down_up := 1 }).check_count = -2 ∧
    (policy_ticks (fun _ => 100) 13 { xplug_init {0} with biased_down_up := 1 }).xplug_state
      = XPLUG_STATE.UP ∧
    (policy_ticks (fun _ => 100) 25 { xplug_init {0} with biased_down_up := 1 }).xplug_state
      = XPLUG_STATE.IDLE ∧
    (policy_ticks (fun _ => 100) 25 { xplug_init {0} with biased_down_up := 1 }).check_count
      = -24 := by
  refine ⟨?_, ?_, ?_, ?_⟩ <;> decide

/-- C5 (amended): with `dispatch_rate = 2`, `biased_down_up = 1`,
`sample_rate = 250`, counter initially 0 and a load strictly above
`target_load` on every tick, the scaled threshold is 25, the counter decrements
by `dispatch_rate = 2` on each tick, the decision is IDLE on ticks 1..12 and is
UP on tick 13, after which the counter is 0. -/
theorem online_faster_up_on_tick_13 (loads : Nat → Nat) (s : Gov)
    (hdr : s.dispatch_rate = 2) (hb : s.biased_down_up = 1) (hsr : s.sample_rate = 250)
    (hc : s.check_count = 0) (hl : ∀ k, s.target_load < loads k) :
    scaled_sampler s.sample_rate = 25 ∧
    (∀ n : Nat, 1 ≤ n → n ≤ 12 →
      (policy_ticks loads n s).check_count = -(2 * (n : Int)) ∧
      (policy_ticks loads n s).xplug_state = XPLUG_STATE.IDLE) ∧
    (policy_ticks loads 13 s).xplug_state = XPLUG_STATE.UP ∧
    (policy_ticks loads 13 s).check_count = 0 := by
  have hd : (if s.biased_down_up = 1 then (s.dispatch_rate : Int) else 1) = 2 := by
    simp [hb, hdr]
  refine ⟨by rw [hsr]; exact scaled_sampler_250, ?_, ?_, ?_⟩
  · intro n h1 h12
    have hn : (2 : Int) * n < 25 := by omega
    rw [policy_ticks_above loads s 2 (by norm_num) (by norm_num) hsr hc hd hl n hn]
    have hn0 : n ≠ 0 := by omega
    simp [hn0]
  · rw [policy_ticks_above_last loads s 2 (by norm_num) (by norm_num) hsr hc hd hl 12
      (by norm_num) (by norm_num)]
  · rw [policy_ticks_above_last loads s 2 (by norm_num) (by norm_num) hsr hc hd hl 12
      (by norm_num) (by norm_num)]

/-- Witness of `online_faster_up_on_tick_13`: the default configuration with
`biased_down_up = 1`, at load 100 on every tick. -/
theorem online_faster_up_on_tick_13_witness :
    scaled_sampler ({ xplug_init {0} with biased_down_up := 1 } : Gov).sample_rate = 25 ∧
    (∀ n : Nat, 1 ≤ n → n ≤ 12 →
      (policy_ticks (fun _ => 100) n { xplug_init {0} with biased_down_up := 1 }).check_count
        = -(2 * (n : Int)) ∧
      (policy_ticks (fun _ => 100) n { xplug_init {0} with biased_down_up := 1 }).xplug_state
        = XPLUG_STATE.IDLE) ∧
    (policy_ticks (fun _ => 100) 13 { xplug_init {0} with biased_down_up := 1 }).xplug_state
      = XPLUG_STATE.UP ∧
    (policy_ticks (fun _ => 100) 13 { xplug_init {0} with biased_down_up := 1 }).check_count = 0 :=
  online_faster_up_on_tick_13 (fun _ => 100) { xplug_init {0} with biased_down_up := 1 }
    rfl rfl rfl rfl (fun _ => (by decide : (40 : Nat) < 100))

/-- C6 (the claim fails as stated): with `dispatch_rate = 2`,
`biased_down_up = 0`, `sample_rate = 250`, counter 0, target 40 and load 100 on
every tick, the counter is -1 (not -2) after the first tick, the decision on
tick 13 is IDLE (not DOWN) with the counter at -13, and the decision on tick 25
is UP. -/
theorem offline_faster_not_down_on_tick_13 :
    (policy_ticks (fun _ => 100) 1 (xplug_init {0})).check_count = -1 ∧
    (policy_ticks (fun _ => 100) 13 (xplug_init {0})).xplug_state = XPLUG_STATE.IDLE ∧
    (policy_ticks (fun _ => 100) 13 (xplug_init {0})).check_count = -13 ∧
    (policy_ticks (fun _ => 100) 25 (xplug_init {0})).xplug_state = XPLUG_STATE.UP := by
  refine ⟨?_, ?_, ?_, ?_⟩ <;> decide

/-- C6 (amended): with `biased_down_up = 0`, `sample_rate = 250`, counter
initially 0 and a load strictly above `target_load` on every tick, the counter
decrements by 1 on each tick whatever `dispatch_rate` is (2 included), the
decision is IDLE on ticks 1..24 and is UP for the first time on tick 25, after
which the counter is 0. -/
theorem offline_faster_up_on_tick_25 (loads : Nat → Nat) (s : Gov)
    (hb : s.biased_down_up = 0) (hsr : s.sample_rate = 250)
    (hc : s.check_count = 0) (hl : ∀ k, s.target_load < loads k) :
    (∀ n : Nat, 1 ≤ n → n ≤ 24 →
      (policy_ticks loads n s).check_count = -(n : Int) ∧
      (policy_ticks loads n s).xplug_state = XPLUG_STATE.IDLE) ∧
    (policy_ticks loads 25 s).xplug_state = XPLUG_STATE.UP ∧
    (policy_ticks loads 25 s).check_count = 0 := by
  have hd : (if s.biased_down_up = 1 then (s.dispatch_rate : Int) else 1) = 1 := by
    simp [hb]
  refine ⟨?_, ?_, ?_⟩
  · intro n h1 h24
    have hn : (1 : Int) * n < 25 := by omega
    rw [policy_ticks_above loads s 1 (by norm_num) (by norm_num) hsr hc hd hl n hn]
    have hn0 : n ≠ 0 := by omega
    simp [hn0]
  · rw [policy_ticks_above_last loads s 1 (by norm_num) (by norm_num) hsr hc hd hl 24
      (by norm_num) (by norm_num)]
  · rw [policy_ticks_above_last loads s 1 (by norm_num) (by norm_num) hsr hc hd hl 24
      (by norm_num) (by norm_num)]

/-- Witness of `offline_faster_up_on_tick_25`: the default configuration at
load 100 on every tick. -/
theorem offline_faster_up_on_tick_25_witness :
    (∀ n : Nat, 1 ≤ n → n ≤ 24 →
      (policy_ticks (fun _ => 100) n (xplug_init {0})).check_count = -(n : Int) ∧
      (policy_ticks (fun _ => 100) n (xplug_init {0})).xplug_state = XPLUG_STATE.IDLE) ∧
    (policy_ticks (fun _ => 100) 25 (xplug_init {0})).xplug_state = XPLUG_STATE.UP ∧
    (policy_ticks (fun _ => 100) 25 (xplug_init {0})).check_count = 0 :=
  offline_faster_up_on_tick_25 (fun _ => 100) (xplug_init {0}) rfl rfl rfl
    (fun _ => (by decide : (40 : Nat) < 100))

/-! ## PredictiveHistogram -/

/-- C7: for every load in `0..100`, every nine-bucket histogram and every
`min_target_load`, `target_predict_policy` completes; it selects a response
bucket `r` in `0..8`, the subtraction `100 - 10 * r` does not wrap, and the
state it hands to `target_load_policy` has
`target_load = max min_target_load (100 - 10 * r)`, which is also the
`target_load` left after the policy; so `target_load` is never below
`min_target_load`. -/
theorem target_predict_target_load (load1 load2 : Nat) (s : Gov) (hl : load1 ≤ 100)
    (hh : s.cpu_load.length = 9) :
    ∃ h1 r s1, target_predict_select load1 s.cpu_load = some (h1, r) ∧ r ≤ 8 ∧
      usub32 100 (u32 (r * 10)) = 100 - 10 * r ∧ 10 * r ≤ 100 ∧
      target_predict_policy load1 load2 s = some (target_load_policy load2 s1) ∧
      s1.target_load = max s.min_target_load (100 - 10 * r) ∧
      (target_load_policy load2 s1).target_load = max s.min_target_load (100 - 10 * r) ∧
      s.min_target_load ≤ (target_load_policy load2 s1).target_load := by
  obtain ⟨h1, r, hsel, hr, _⟩ := target_predict_select_some load1 s.cpu_load hl hh
  have hsub := usub32_100 r hr
  have ht : (if usub32 100 (u32 (r * 10)) < s.min_target_load then s.min_target_load
      else usub32 100 (u32 (r * 10))) = max s.min_target_load (100 - 10 * r) := by
    rw [hsub]
    split_ifs with hlt
    · exact (max_eq_left (le_of_lt hlt)).symm
    · exact (max_eq_right (not_lt.mp hlt)).symm
  have hframe := (target_load_policy_frame load2
    { s with cpu_load := h1, response_index := u32 (r * 10),
             target_load := if usub32 100 (u32 (r * 10)) < s.min_target_load
               then s.min_target_load else usub32 100 (u32 (r * 10)) }).2.2.2.2.2.2
  refine ⟨h1, r,
    { s with cpu_load := h1, response_index := u32 (r * 10),
             target_load := if usub32 100 (u32 (r * 10)) < s.min_target_load
               then s.min_target_load else usub32 100 (u32 (r * 10)) },
    hsel, hr, hsub, by omega, ?_, ht, ?_, ?_⟩
  · unfold target_predict_policy
    rw [hsel]
  · rw [hframe]
    exact ht
  · rw [hframe]
    simp only [ht]
    exact le_max_left _ _

/-- Witness of `target_predict_target_load`: the start state at load 35. -/
theorem target_predict_target_load_witness :
    ∃ h1 r s1, target_predict_select 35 (xplug_init {0}).cpu_load = some (h1, r) ∧ r ≤ 8 ∧
      usub32 100 (u32 (r * 10)) = 100 - 10 * r ∧ 10 * r ≤ 100 ∧
      target_predict_policy 35 35 (xplug_init {0}) = some (target_load_policy 35 s1) ∧
      s1.target_load = max (xplug_init {0}).min_target_load (100 - 10 * r) ∧
      (target_load_policy 35 s1).target_load
        = max (xplug_init {0}).min_target_load (100 - 10 * r) ∧
      (xplug_init {0}).min_target_load ≤ (target_load_policy 35 s1).target_load :=
  target_predict_target_load 35 35 (xplug_init {0}) (by decide) (by decide)

/-! ## Suspend, resume and touch boost -/

/-- C8 (the claim fails as stated): with the default configuration,
`NR_CPUS = 6` and cores 1 and 2 online (core 0 offline), the display-off event
leaves no core online although `min_cpus` is 1. -/
theorem suspend_count_not_min_cpus :
    num_online_cpus (lcd_notifier_callback 6 LCD_EVENT.LCD_EVENT_OFF_END
      (xplug_init {1, 2})).online = 0 ∧
    (lcd_notifier_callback 6 LCD_EVENT.LCD_EVENT_OFF_END (xplug_init {1, 2})).min_cpus = 1 := by
  constructor <;> decide

/-- C8 (amended): for every prior set of online cores with ids below `NR_CPUS`
that contains the cores `0 .. min_cpus - 1` (the suspend path only takes cores
offline), and `min_cpus` at most `2^31`, after the display-off event the
suspend flag is true, exactly `min_cpus` cores are online and the activation
index equals `min_cpus - 1`. -/
theorem suspend_leaves_min_cpus (NR_CPUS : Nat) (s : Gov)
    (hwf : ∀ c ∈ s.online, c < NR_CPUS) (hlow : ∀ j < s.min_cpus, j ∈ s.online)
    (hrange : s.min_cpus ≤ 2147483648) :
    (lcd_notifier_callback NR_CPUS LCD_EVENT.LCD_EVENT_OFF_END s).isSuspended = true ∧
    num_online_cpus (lcd_notifier_callback NR_CPUS LCD_EVENT.LCD_EVENT_OFF_END s).online
      = s.min_cpus ∧
    (lcd_notifier_callback NR_CPUS LCD_EVENT.LCD_EVENT_OFF_END s).curr_index
      = (s.min_cpus : Int) - 1 := by
  refine ⟨rfl, ?_, ?_⟩
  · have hset : (lcd_notifier_callback NR_CPUS LCD_EVENT.LCD_EVENT_OFF_END s).online
        = Finset.range s.min_cpus := by
      ext j
      simp only [lcd_notifier_callback, xplug_suspend, offline_cpus, mem_offline_loop,
        Finset.mem_range]
      constructor
      · rintro ⟨h1, h2⟩
        have := hwf j h1
        by_contra hge
        exact h2 ⟨by omega, this⟩
      · intro hj
        exact ⟨hlow j hj, fun h => by omega⟩
    rw [hset]
    simp [num_online_cpus]
  · simp only [lcd_notifier_callback, xplug_suspend, offline_cpus]
    exact wrap32_eq_self _ (by omega) (by omega)

/-- Witness of `suspend_leaves_min_cpus`: the start state with six cores
online. -/
theorem suspend_leaves_min_cpus_witness :
    (lcd_notifier_callback 6 LCD_EVENT.LCD_EVENT_OFF_END
      (xplug_init (Finset.range 6))).isSuspended = true ∧
    num_online_cpus (lcd_notifier_callback 6 LCD_EVENT.LCD_EVENT_OFF_END
      (xplug_init (Finset.range 6))).online = (xplug_init (Finset.range 6)).min_cpus ∧
    (lcd_notifier_callback 6 LCD_EVENT.LCD_EVENT_OFF_END
      (xplug_init (Finset.range 6))).curr_index
      = ((xplug_init (Finset.range 6)).min_cpus : Int) - 1 :=
  suspend_leaves_min_cpus 6 (xplug_init (Finset.range 6))
    (fun _ hc => Finset.mem_range.mp hc) (by decide) (by decide)

/-- C9 (the claim fails as stated): with `NR_CPUS = 6`, core 0 online and
`max_cpus = 2`, the resume task leaves six cores online, not
`min max_cpus NR_CPUS = 2`; with the default `max_cpus = 6` and core 1 alone
online it leaves five cores online, not six. -/
theorem resume_count_not_max_cpus :
    num_online_cpus (xplug_resume_work_fn 6 { xplug_init {0} with max_cpus := 2 }).online = 6 ∧
    min ({ xplug_init {0} with max_cpus := 2 } : Gov).max_cpus 6 = 2 ∧
    num_online_cpus (xplug_resume_work_fn 6 (xplug_init {1})).online = 5 ∧
    min (xplug_init {1}).max_cpus 6 = 6 := by
  refine ⟨?_, ?_, ?_, ?_⟩ <;> decide

/-- C9 (amended): for every prior set of online cores with ids below `NR_CPUS`
that contains core 0 (the resume path brings up cores `1 .. NR_CPUS - 1` only),
and every `max_cpus` at most `2^31`, after the resume task exactly `NR_CPUS`
cores are online whatever `max_cpus` is, the activation index equals
`max_cpus - 1`, and the periodic tick is pending, with delay `sample_rate` when
it was not pending before. -/
theorem resume_brings_all_online (NR_CPUS : Nat) (s : Gov)
    (hwf : ∀ c ∈ s.online, c < NR_CPUS) (h0 : 0 ∈ s.online)
    (hrange : s.max_cpus ≤ 2147483648) :
    num_online_cpus (xplug_resume_work_fn NR_CPUS s).online = NR_CPUS ∧
    (xplug_resume_work_fn NR_CPUS s).curr_index = (s.max_cpus : Int) - 1 ∧
    (xplug_resume_work_fn NR_CPUS s).xplug_work.isSome = true ∧
    (s.xplug_work = none →
      (xplug_resume_work_fn NR_CPUS s).xplug_work = some s.sample_rate) := by
  refine ⟨?_, ?_, ?_, ?_⟩
  · have hset : (xplug_resume_work_fn NR_CPUS s).online = Finset.range NR_CPUS := by
      ext j
      simp only [xplug_resume_work_fn, xplug_resume, cpus_online_all, mem_online_loop,
        Finset.mem_range]
      constructor
      · rintro (h | h)
        · exact hwf j h
        · exact h.2
      · intro hj
        by_cases hz : j = 0
        · exact Or.inl (hz ▸ h0)
        · exact Or.inr ⟨by omega, hj⟩
    rw [hset]
    simp [num_online_cpus]
  · simp only [xplug_resume_work_fn, xplug_resume, cpus_online_all]
    exact wrap32_eq_self _ (by omega) (by omega)
  · simp only [xplug_resume_work_fn, xplug_resume, cpus_online_all, queue_delayed_work_on]
    cases s.xplug_work <;> rfl
  · intro hnone
    simp only [xplug_resume_work_fn, xplug_resume, cpus_online_all, queue_delayed_work_on, hnone]

/-- Witness of `resume_brings_all_online`: core 0 alone online, `NR_CPUS = 6`,
the tick not pending. -/
theorem resume_brings_all_online_witness :
    num_online_cpus (xplug_resume_work_fn 6
      { xplug_init {0} with xplug_work := none }).online = 6 ∧
    (xplug_resume_work_fn 6 { xplug_init {0} with xplug_work := none }).curr_index
      = (({ xplug_init {0} with xplug_work := none } : Gov).max_cpus : Int) - 1 ∧
    (xplug_resume_work_fn 6 { xplug_init {0} with xplug_work := none }).xplug_work.isSome = true ∧
    (({ xplug_init {0} with xplug_work := none } : Gov).xplug_work = none →
      (xplug_resume_work_fn 6 { xplug_init {0} with xplug_work := none }).xplug_work
        = some ({ xplug_init {0} with xplug_work := none } : Gov).sample_rate) :=
  resume_brings_all_online 6 { xplug_init {0} with xplug_work := none }
    (by decide) (by decide) (by decide)

/-- C10 (the claim fails as stated): with `NR_CPUS = 6`, touch boost enabled
and core 1 alone online, the touch-down event queues the boost task and the
boost task leaves core 0 offline. The same state arises from the start state
with cores 0 and 1 online after thirteen ticks at load 0. -/
theorem boost_leaves_core_zero_offline :
    (xplug_input_event 1 330 1 330 1 (xplug_init {1})).xplug_boost = some 0 ∧
    print_cpus_all 6 (xplug_boost_work_fn 6
      (xplug_input_event 1 330 1 330 1 (xplug_init {1}))).online = [0, 1, 1, 1, 1, 1] ∧
    (run 6 6 (List.replicate 13 (Event.tick 0 0) ++ [Event.boost_task])
      (xplug_init {0, 1})).map (fun s => print_cpus_all 6 s.online)
      = some [0, 1, 1, 1, 1, 1] := by
  refine ⟨?_, ?_, ?_⟩ <;> decide

/-- C10 (amended): a touch-down event (type `EV_KEY`, code `BTN_TOUCH`,
value 1) with `touch_boost_enabled = 1` leaves the boost task pending (with
delay 0 when it was not pending); after the boost task every core
`1 .. NR_CPUS - 1` is online and every other core, core 0 included, keeps its
prior status, so all of `0 .. NR_CPUS - 1` are online when core 0 was; the
activation index and the hysteresis counter are unchanged; with
`touch_boost_enabled ≠ 1` an input event changes nothing. -/
theorem touch_boost_effect (EV_KEY BTN_TOUCH NR_CPUS : Nat) (s : Gov) :
    (s.touch_boost_enabled = 1 →
      (xplug_input_event EV_KEY BTN_TOUCH EV_KEY BTN_TOUCH 1 s).xplug_boost.isSome = true ∧
      (s.xplug_boost = none →
        (xplug_input_event EV_KEY BTN_TOUCH EV_KEY BTN_TOUCH 1 s).xplug_boost = some 0)) ∧
    (∀ j, j ∈ (xplug_boost_work_fn NR_CPUS s).online ↔ j ∈ s.online ∨ (1 ≤ j ∧ j < NR_CPUS)) ∧
    (0 ∈ s.online → ∀ j < NR_CPUS, j ∈ (xplug_boost_work_fn NR_CPUS s).online) ∧
    (xplug_boost_work_fn NR_CPUS s).curr_index = s.curr_index ∧
    (xplug_boost_work_fn NR_CPUS s).check_count = s.check_count ∧
    (s.touch_boost_enabled ≠ 1 → ∀ (type code : Nat) (value : Int),
      xplug_input_event EV_KEY BTN_TOUCH type code value s = s) := by
  refine ⟨?_, ?_, ?_, rfl, rfl, ?_⟩
  · intro hen
    simp only [xplug_input_event, hen, and_self, if_true, queue_delayed_work_on]
    constructor
    · cases s.xplug_boost <;> rfl
    · intro hnone
      rw [hnone]
  · intro j
    simp only [xplug_boost_work_fn, mem_online_loop]
  · intro h0 j hj
    simp only [xplug_boost_work_fn, mem_online_loop]
    by_cases hz : j = 0
    · exact Or.inl (hz ▸ h0)
    · exact Or.inr ⟨by omega, hj⟩
  · intro hne type code value
    simp only [xplug_input_event, hne, and_false, if_false]

/-- Witness of `touch_boost_effect`: the start state with core 0 alone online,
`EV_KEY = 1`, `BTN_TOUCH = 330`, `NR_CPUS = 6`. -/
theorem touch_boost_effect_witness :
    (xplug_input_event 1 330 1 330 1 (xplug_init {0})).xplug_boost = some 0 ∧
    ∀ j < 6, j ∈ (xplug_boost_work_fn 6 (xplug_init {0})).online :=
  ⟨((touch_boost_effect 1 330 6 (xplug_init {0})).1 rfl).2 rfl,
   (touch_boost_effect 1 330 6 (xplug_init {0})).2.2.1 (by decide)⟩

/-! ## Configuration attributes -/

/-- C11 (the code departs from the claim): `target_load_store` tests the stored
value, not the incoming one. With the stored value 40 a write of 500 is
accepted and is what `target_load_show` then reports, and a write of -1 stores
`2^32 - 1`; once 500 is stored a write of the in-range value 50 is refused. The
sibling `biased_down_up_store` tests the incoming value: a write of 5 leaves
the stored 0 in place. -/
theorem target_load_store_tests_stored_value :
    (xplug_init {0}).target_load = 40 ∧
    (target_load_store 500 (xplug_init {0})).target_load = 500 ∧
    target_load_show (target_load_store 500 (xplug_init {0})) = 500 ∧
    (target_load_store (-1) (xplug_init {0})).target_load = 4294967295 ∧
    (target_load_store 50 (target_load_store 500 (xplug_init {0}))).target_load = 500 ∧
    (biased_down_up_store 5 (xplug_init {0})).biased_down_up = 0 := by
  refine ⟨?_, ?_, ?_, ?_, ?_, ?_⟩ <;> decide

/-- C20: `policy_store` decides from the stored value alone. If the stored
policy is at most 3 the stored policy becomes the incoming integer `v` (its
32-bit unsigned representation, which is `v` itself for `0 ≤ v < 2^32`, and
what `policy_show` prints is `v` for every `int`); if the stored policy is
above 3 the state is unchanged. Hence once the policy is `TARGET_PREDICT = 4`
every sequence of later writes leaves it at 4. -/
theorem policy_store_tests_stored_value (s : Gov) (v : Int) :
    (s.policy ≤ 3 →
      ((policy_store v s).policy : Int) = v % 4294967296 ∧
      (0 ≤ v → v < 4294967296 → ((policy_store v s).policy : Int) = v) ∧
      (-2147483648 ≤ v → v < 2147483648 → policy_show (policy_store v s) = v)) ∧
    (3 < s.policy → policy_store v s = s) ∧
    (s.policy = TARGET_PREDICT →
      ∀ vs : List Int, (vs.foldl (fun t w => policy_store w t) s).policy = TARGET_PREDICT) := by
  refine ⟨?_, ?_, ?_⟩
  · intro hp
    have hst : (policy_store v s).policy = int_to_u32 v := by
      unfold policy_store
      rw [if_pos ⟨Nat.zero_le _, hp⟩]
    have hcast : ((int_to_u32 v : Nat) : Int) = v % 4294967296 := by
      unfold int_to_u32
      exact Int.toNat_of_nonneg (Int.emod_nonneg v (by norm_num))
    refine ⟨by rw [hst, hcast], ?_, ?_⟩
    · intro h0 h1
      rw [hst, hcast]
      exact Int.emod_eq_of_lt h0 h1
    · intro h0 h1
      unfold policy_show
      rw [hst, hcast]
      unfold wrap32
      omega
  · intro hp
    unfold policy_store
    rw [if_neg (by omega)]
  · intro hp vs
    induction vs with
    | nil => exact hp
    | cons w rest ih =>
      have hsame : policy_store w s = s := by
        unfold policy_store
        rw [if_neg (by rw [hp]; decide)]
      rw [List.foldl_cons, hsame]
      exact ih

/-- Witness of `policy_store_tests_stored_value`: from the default policy 1 a
write of 4 is accepted, after which writes of 1, 2 and 3 leave the policy
at 4. -/
theorem policy_store_tests_stored_value_witness :
    ((policy_store 4 (xplug_init {0})).policy : Int) = 4 ∧
    ([1, 2, 3].foldl (fun t w => policy_store w t) (policy_store 4 (xplug_init {0}))).policy
      = TARGET_PREDICT :=
  ⟨((policy_store_tests_stored_value (xplug_init {0}) 4).1 (by decide)).2.1
      (by decide) (by decide),
   (policy_store_tests_stored_value (policy_store 4 (xplug_init {0})) 0).2.2 (by decide)
      [1, 2, 3]⟩

/-! ## LoadSampler -/

/-- C12 (the code departs from the claim): a failed policy query makes
`get_curr_load` return `-EINVAL` through its unsigned return type, and
`get_average_load` adds that value to the sum. With `EINVAL = 22`, cores 0 and
1 online, core 0 at utilisation 50 and the query failing for core 1, the failed
core contributes `2^32 - 22`, the sum wraps to 28 and the aggregate is 14, not
`50 / 2 = 25`; with core 1 alone online the aggregate is `2^32 - 22`, far
above 100. -/
theorem failed_query_adds_error_code :
    (get_curr_load 22 ⟨-22, 0, 0⟩ ⟨0, 0, 0⟩).1 = 4294967274 ∧
    (get_curr_load 22 ⟨0, 50, 100⟩ ⟨0, 0, 0⟩).1 = 50 ∧
    (get_average_load 22 6 (fun c => if c = 0 then ⟨0, 50, 100⟩ else ⟨-22, 0, 0⟩) {0, 1}
      (fun _ => ⟨0, 0, 0⟩)).map (fun x => x.1) = some 14 ∧
    (get_average_load 22 6 (fun c => if c = 0 then ⟨0, 50, 100⟩ else ⟨-22, 0, 0⟩) {1}
      (fun _ => ⟨0, 0, 0⟩)).map (fun x => x.1) = some 4294967274 := by
  refine ⟨?_, ?_, ?_, ?_⟩ <;> decide

/-- C13 (the claim fails as stated): the deltas are truncated to 32 bits and
the product `100 * (wall_time - idle_time)` is a 32-bit product. From previous
readings `(0, 0)`, a wall delta of `10^8` with idle delta 0 gives 14, not
`floor (100 * 10^8 / 10^8) = 100`; a wall delta of `2^32` with idle delta 0
gives 0 although the wall delta is neither 0 nor below the idle delta. -/
theorem get_curr_load_wraps :
    (get_curr_load 22 ⟨0, 0, 100000000⟩ ⟨0, 0, 0⟩).1 = 14 ∧
    100 * (100000000 - 0) / 100000000 = 100 ∧
    (get_curr_load 22 ⟨0, 0, 4294967296⟩ ⟨0, 0, 0⟩).1 = 0 ∧
    100 * (4294967296 - 0) / 4294967296 = 100 := by
  refine ⟨?_, ?_, ?_, ?_⟩ <;> decide

/-- C13 (amended): for a core whose policy query succeeds, with 64-bit readings
that do not go backwards, `wall_delta = wall_now - wall_prev` and
`idle_delta = idle_now - idle_prev` both below `2^32` and
`100 * (wall_delta - idle_delta)` below `2^32`: `get_curr_load` returns 0 when
`wall_delta = 0` or `wall_delta < idle_delta`, and otherwise exactly
`floor (100 * (wall_delta - idle_delta) / wall_delta)`; in both cases the
stored previous idle and wall times become the current readings. -/
theorem get_curr_load_exact (EINVAL : Nat) (r : CpuReading) (pcpu : cpu_load_data)
    (hret : r.ret = 0)
    (hw : pcpu.prev_cpu_wall ≤ r.cur_wall_time) (hi : pcpu.prev_cpu_idle ≤ r.cur_idle_time)
    (hw64 : r.cur_wall_time < 18446744073709551616)
    (hi64 : r.cur_idle_time < 18446744073709551616)
    (hwd : r.cur_wall_time - pcpu.prev_cpu_wall < 4294967296)
    (hid : r.cur_idle_time - pcpu.prev_cpu_idle < 4294967296)
    (hprod : 100 * ((r.cur_wall_time - pcpu.prev_cpu_wall)
      - (r.cur_idle_time - pcpu.prev_cpu_idle)) < 4294967296) :
    (get_curr_load EINVAL r pcpu).1 =
      (if r.cur_wall_time - pcpu.prev_cpu_wall = 0 ∨
          r.cur_wall_time - pcpu.prev_cpu_wall < r.cur_idle_time - pcpu.prev_cpu_idle then 0
       else 100 * ((r.cur_wall_time - pcpu.prev_cpu_wall)
          - (r.cur_idle_time - pcpu.prev_cpu_idle)) / (r.cur_wall_time - pcpu.prev_cpu_wall)) ∧
    (get_curr_load EINVAL r pcpu).2.prev_cpu_idle = r.cur_idle_time ∧
    (get_curr_load EINVAL r pcpu).2.prev_cpu_wall = r.cur_wall_time := by
  have hwall : u32 (usub64 r.cur_wall_time pcpu.prev_cpu_wall)
      = r.cur_wall_time - pcpu.prev_cpu_wall := by
    unfold u32 usub64
    omega
  have hidle : u32 (usub64 r.cur_idle_time pcpu.prev_cpu_idle)
      = r.cur_idle_time - pcpu.prev_cpu_idle := by
    unfold u32 usub64
    omega
  have hp : u32 (100 * ((r.cur_wall_time - pcpu.prev_cpu_wall)
      - (r.cur_idle_time - pcpu.prev_cpu_idle)))
      = 100 * ((r.cur_wall_time - pcpu.prev_cpu_wall)
        - (r.cur_idle_time - pcpu.prev_cpu_idle)) := by
    unfold u32
    exact Nat.mod_eq_of_lt hprod
  unfold get_curr_load
  rw [if_neg (by simp [hret])]
  simp only [hwall, hidle, hp]
  split_ifs <;> exact ⟨rfl, rfl, rfl⟩

/-- Witness of `get_curr_load_exact`: previous readings `(1000, 5000)`, current
readings `(1100, 5400)`: the utilisation is `100 * 300 / 400 = 75`. -/
theorem get_curr_load_exact_witness :
    (get_curr_load 22 ⟨0, 1100, 5400⟩ ⟨1000, 5000, 0⟩).1 = 75 ∧
    (get_curr_load 22 ⟨0, 1100, 5400⟩ ⟨1000, 5000, 0⟩).2.prev_cpu_idle = 1100 ∧
    (get_curr_load 22 ⟨0, 1100, 5400⟩ ⟨1000, 5000, 0⟩).2.prev_cpu_wall = 5400 :=
  get_curr_load_exact 22 ⟨0, 1100, 5400⟩ ⟨1000, 5000, 0⟩ rfl (by decide) (by decide)
    (by decide) (by decide) (by decide) (by decide) (by decide)

/-- C19: whenever the policy query succeeds `get_curr_load` returns a value in
`0..100`, for all previous and current readings, the readings on which the
32-bit product wraps included; hence when the query succeeds for every online
core and at least one core is online, `get_average_load` completes and returns
a value in `0..100`. -/
theorem load_is_a_percentage (EINVAL nr_cpu_ids : Nat) (readings : Nat → CpuReading)
    (online : Finset Nat) (cpuload : Nat → cpu_load_data)
    (hok : ∀ c ∈ online, (readings c).ret = 0) (hone : 0 < num_online_cpus online) :
    (∀ (r : CpuReading) (pcpu : cpu_load_data), r.ret = 0 →
      (get_curr_load EINVAL r pcpu).1 ≤ 100) ∧
    ∃ l cl, get_average_load EINVAL nr_cpu_ids readings online cpuload = some (l, cl) ∧
      l ≤ 100 := by
  refine ⟨fun r pcpu hr => get_curr_load_ok_le EINVAL r pcpu hr, ?_⟩
  unfold get_average_load
  rw [if_neg (by omega)]
  refine ⟨_, _, rfl, ?_⟩
  apply Nat.div_le_of_le_mul
  have h1 := get_average_load_sum_le EINVAL readings (for_each_online_cpu nr_cpu_ids online)
    (fun c hc => hok c (mem_for_each_online_cpu nr_cpu_ids online c hc)) 0 cpuload
  have h2 := for_each_online_cpu_length nr_cpu_ids online
  have h3 : 100 * (for_each_online_cpu nr_cpu_ids online).length
      ≤ 100 * num_online_cpus online := Nat.mul_le_mul_left 100 h2
  calc (get_average_load_sum EINVAL readings (for_each_online_cpu nr_cpu_ids online)
          0 cpuload).1
      ≤ 0 + 100 * (for_each_online_cpu nr_cpu_ids online).length := h1
    _ ≤ num_online_cpus online * 100 := by omega

/-- Witness of `load_is_a_percentage`: cores 0 and 1 online, both with a wall
delta of `10^8` and no idle time, on which the 32-bit product wraps. -/
theorem load_is_a_percentage_witness :
    4294967296 ≤ 100 * (100000000 - 0) ∧
    (get_curr_load 22 ⟨0, 0, 100000000⟩ ⟨0, 0, 0⟩).1 ≤ 100 ∧
    ∃ l cl, get_average_load 22 6 (fun _ => ⟨0, 0, 100000000⟩) {0, 1} (fun _ => ⟨0, 0, 0⟩)
      = some (l, cl) ∧ l ≤ 100 :=
  have h := load_is_a_percentage 22 6 (fun _ => ⟨0, 0, 100000000⟩) {0, 1}
    (fun _ => ⟨0, 0, 0⟩) (fun _ _ => rfl) (by decide)
  ⟨by decide, h.1 ⟨0, 0, 100000000⟩ ⟨0, 0, 0⟩ rfl, h.2⟩

/-! ## ThresholdHysteresis: one run -/

/-- C14: the counter update of one run of `target_load_policy`, before the
threshold comparison, for every counter value, load, `target_load`,
`dispatch_rate` and bias: a load above the target gives
`c - dispatch_rate` when the bias is 1 and `c - 1` otherwise; a load below the
target gives `c + dispatch_rate` when the bias is 0 and `c + 1` otherwise; a
load equal to the target leaves `c` unchanged. The arithmetic is that of a
32-bit signed counter: the result is the value in `[-2^31, 2^31)` congruent to
the exact one modulo `2^32`, hence the exact one when that is in range. The
counter stored by the run is this value, or 0 when a threshold is reached. -/
theorem counter_update_rule (load : Nat) (s : Gov) :
    (s.target_load < load → s.biased_down_up = 1 →
      check_count_update load s = wrap32 (s.check_count - (s.dispatch_rate : Int))) ∧
    (s.target_load < load → s.biased_down_up ≠ 1 →
      check_count_update load s = wrap32 (s.check_count - 1)) ∧
    (load < s.target_load → s.biased_down_up = 0 →
      check_count_update load s = wrap32 (s.check_count + (s.dispatch_rate : Int))) ∧
    (load < s.target_load → s.biased_down_up ≠ 0 →
      check_count_update load s = wrap32 (s.check_count + 1)) ∧
    (load = s.target_load → check_count_update load s = s.check_count) ∧
    (∀ x : Int, (wrap32 x - x) % 4294967296 = 0 ∧ -2147483648 ≤ wrap32 x ∧
      wrap32 x < 2147483648) ∧
    (∀ x : Int, -2147483648 ≤ x → x < 2147483648 → wrap32 x = x) ∧
    ((target_load_policy load s).check_count = check_count_update load s ∨
      (target_load_policy load s).check_count = 0) := by
  refine ⟨?_, ?_, ?_, ?_, ?_, wrap32_congr, wrap32_eq_self, ?_⟩
  · intro hl hb
    unfold check_count_update
    rw [if_pos hl, if_pos hb]
  · intro hl hb
    unfold check_count_update
    rw [if_pos hl, if_neg hb]
  · intro hl hb
    unfold check_count_update
    rw [if_neg (by omega), if_pos hl, if_pos hb]
  · intro hl hb
    unfold check_count_update
    rw [if_neg (by omega), if_pos hl, if_neg hb]
  · intro hl
    unfold check_count_update
    rw [if_neg (by omega), if_neg (by omega)]
  · unfold target_load_policy
    simp only []
    split_ifs
    · exact Or.inr rfl
    · exact Or.inr rfl
    · exact Or.inl rfl

/-- Witness of `counter_update_rule`: the default configuration (bias 0,
`dispatch_rate` 2, target 40) with the counter at 10: a load of 100 gives 9, a
load of 0 gives 12. -/
theorem counter_update_rule_witness :
    check_count_update 100 { xplug_init {0} with check_count := 10 } = wrap32 (10 - 1) ∧
    check_count_update 0 { xplug_init {0} with check_count := 10 } = wrap32 (10 + (2 : Nat)) ∧
    wrap32 (10 - 1) = 9 ∧ wrap32 (10 + (2 : Nat)) = 12 :=
  ⟨(counter_update_rule 100 { xplug_init {0} with check_count := 10 }).2.1
      (by decide) (by decide),
   (counter_update_rule 0 { xplug_init {0} with check_count := 10 }).2.2.1
      (by decide) (by decide),
   (counter_update_rule 0 (xplug_init {0})).2.2.2.2.2.2.1 _ (by decide) (by decide),
   (counter_update_rule 0 (xplug_init {0})).2.2.2.2.2.2.1 _ (by decide) (by decide)⟩

/-- C15: for every `sample_rate` with `sample_rate * 100 < 2^32` the threshold
computed by `target_load_policy` is `T = sample_rate * 100 / 1000`, and for the
updated counter `c`: if `c ≥ T` the state is DOWN and the counter 0; otherwise
if `c ≤ -T` the state is UP and the counter 0; otherwise the state is IDLE and
the counter is `c`. Hence the counter stored by the run is strictly between
`-T` and `T`, or is 0; and when `T = 0` the decision is never IDLE. -/
theorem threshold_rule (load : Nat) (s : Gov) (hsr : s.sample_rate * 100 < 4294967296) :
    scaled_sampler s.sample_rate = ((s.sample_rate * 100 / 1000 : Nat) : Int) ∧
    (((s.sample_rate * 100 / 1000 : Nat) : Int) ≤ check_count_update load s →
      (target_load_policy load s).xplug_state = XPLUG_STATE.DOWN ∧
      (target_load_policy load s).check_count = 0) ∧
    (check_count_update load s < ((s.sample_rate * 100 / 1000 : Nat) : Int) →
      check_count_update load s ≤ -((s.sample_rate * 100 / 1000 : Nat) : Int) →
      (target_load_policy load s).xplug_state = XPLUG_STATE.UP ∧
      (target_load_policy load s).check_count = 0) ∧
    (check_count_update load s < ((s.sample_rate * 100 / 1000 : Nat) : Int) →
      -((s.sample_rate * 100 / 1000 : Nat) : Int) < check_count_update load s →
      (target_load_policy load s).xplug_state = XPLUG_STATE.IDLE ∧
      (target_load_policy load s).check_count = check_count_update load s) ∧
    ((-((s.sample_rate * 100 / 1000 : Nat) : Int) < (target_load_policy load s).check_count ∧
        (target_load_policy load s).check_count < ((s.sample_rate * 100 / 1000 : Nat) : Int)) ∨
      (target_load_policy load s).check_count = 0) ∧
    (s.sample_rate * 100 / 1000 = 0 →
      (target_load_policy load s).xplug_state ≠ XPLUG_STATE.IDLE) := by
  have hT := scaled_sampler_eq s.sample_rate hsr
  have hdown : ((s.sample_rate * 100 / 1000 : Nat) : Int) ≤ check_count_update load s →
      target_load_policy load s
        = { s with xplug_state := XPLUG_STATE.DOWN, check_count := 0 } := by
    intro h
    exact target_load_policy_down load s (by rw [hT]; exact h)
  have hup : check_count_update load s < ((s.sample_rate * 100 / 1000 : Nat) : Int) →
      check_count_update load s ≤ -((s.sample_rate * 100 / 1000 : Nat) : Int) →
      target_load_policy load s
        = { s with xplug_state := XPLUG_STATE.UP, check_count := 0 } := by
    intro h1 h2
    exact target_load_policy_up load s (by rw [hT]; exact h1) (by rw [hT]; omega)
  have hidle : check_count_update load s < ((s.sample_rate * 100 / 1000 : Nat) : Int) →
      -((s.sample_rate * 100 / 1000 : Nat) : Int) < check_count_update load s →
      target_load_policy load s
        = { s with xplug_state := XPLUG_STATE.IDLE,
                   check_count := check_count_update load s } := by
    intro h1 h2
    exact target_load_policy_idle load s (by rw [hT]; exact h1) (by rw [hT]; omega)
  refine ⟨hT, ?_, ?_, ?_, ?_, ?_⟩
  · intro h
    rw [hdown h]
    exact ⟨rfl, rfl⟩
  · intro h1 h2
    rw [hup h1 h2]
    exact ⟨rfl, rfl⟩
  · intro h1 h2
    rw [hidle h1 h2]
    exact ⟨rfl, rfl⟩
  · by_cases h1 : ((s.sample_rate * 100 / 1000 : Nat) : Int) ≤ check_count_update load s
    · rw [hdown h1]
      exact Or.inr rfl
    · by_cases h2 : check_count_update load s ≤ -((s.sample_rate * 100 / 1000 : Nat) : Int)
      · rw [hup (by omega) h2]
        exact Or.inr rfl
      · rw [hidle (by omega) (by omega)]
        exact Or.inl ⟨by simp only []; omega, by simp only []; omega⟩
  · intro hz
    by_cases h1 : ((s.sample_rate * 100 / 1000 : Nat) : Int) ≤ check_count_update load s
    · rw [hdown h1]
      simp
    · have h2 : check_count_update load s ≤ -((s.sample_rate * 100 / 1000 : Nat) : Int) := by
        rw [hz] at h1 ⊢
        omega
      rw [hup (by omega) h2]
      simp

/-- Witness of `threshold_rule`: the default configuration (`sample_rate` 250,
threshold 25) with the counter at 24 and a load of 0: the updated counter 26
reaches the threshold. -/
theorem threshold_rule_witness :
    scaled_sampler ({ xplug_init {0} with check_count := 24 } : Gov).sample_rate
      = ((250 * 100 / 1000 : Nat) : Int) ∧
    (target_load_policy 0 { xplug_init {0} with check_count := 24 }).xplug_state
      = XPLUG_STATE.DOWN ∧
    (target_load_policy 0 { xplug_init {0} with check_count := 24 }).check_count = 0 :=
  have h := threshold_rule 0 { xplug_init {0} with check_count := 24 } (by decide)
  ⟨h.1, h.2.1 (by decide)⟩

/-! ## PredictiveHistogram: the selection -/

/-- C16 (the claim fails as stated): from the initial histogram
`{0,0,0,0,0,0,0,0,1}` a load of 75 falls in bucket 7, whose count becomes 1;
bucket 7 then holds the maximum of its neighbourhood (`h[6] = 0`, `h[8] = 1`),
tied with bucket 8, yet the response index is 8, not 7. -/
theorem tie_with_upper_bucket_moves_up :
    min (75 / 10) 8 = 7 ∧
    target_predict_select 75 [0, 0, 0, 0, 0, 0, 0, 0, 1]
      = some ([0, 0, 0, 0, 0, 0, 0, 1, 1], 8) := by
  constructor <;> decide

/-- C16 (amended): for every load in `0..100` with bucket `d = min (load/10) 8`
and every nine-bucket histogram, with `h` the histogram after `h[d]` was
incremented: if `d = 0` and `h[0] = h[1]` the response index is 0; if `d = 8`
and `h[8] ≥ h[7]` the response index is 8; if `1 ≤ d ≤ 7`, `h[d] ≥ h[d-1]` and
`h[d] > h[d+1]` the response index is `d`; if `1 ≤ d ≤ 7`, `h[d] ≥ h[d-1]` and
`h[d] = h[d+1]` (a tie with the upper neighbour) the response index is
`d + 1`. -/
theorem tie_rule (load : Nat) (h0 : List Int) (hl : load ≤ 100) (hh : h0.length = 9) :
    ∃ h r, target_predict_select load h0 = some (h, r) ∧
      (min (load / 10) 8 = 0 → h.getD 0 0 = h.getD 1 0 → r = 0) ∧
      (min (load / 10) 8 = 8 → h.getD 7 0 ≤ h.getD 8 0 → r = 8) ∧
      (1 ≤ min (load / 10) 8 → min (load / 10) 8 ≤ 7 →
        h.getD (min (load / 10) 8 - 1) 0 ≤ h.getD (min (load / 10) 8) 0 →
        h.getD (min (load / 10) 8 + 1) 0 < h.getD (min (load / 10) 8) 0 →
        r = min (load / 10) 8) ∧
      (1 ≤ min (load / 10) 8 → min (load / 10) 8 ≤ 7 →
        h.getD (min (load / 10) 8 - 1) 0 ≤ h.getD (min (load / 10) 8) 0 →
        h.getD (min (load / 10) 8 + 1) 0 = h.getD (min (load / 10) 8) 0 →
        r = min (load / 10) 8 + 1) := by
  obtain ⟨a0, a1, a2, a3, a4, a5, a6, a7, a8, rfl⟩ := list_of_length_nine h0 hh
  have hd : load / 10 ≤ 10 := by omega
  unfold target_predict_select
  generalize load / 10 = d at hd
  interval_cases d <;> simp [cpu_load_incr] <;> split_ifs <;>
    refine ⟨_, _, ⟨rfl, rfl⟩, ?_⟩ <;> simp <;> omega

/-- Witness of `tie_rule`: the initial histogram at load 75, where bucket 7
ties with bucket 8 and the response index is 8. -/
theorem tie_rule_witness :
    ∃ h r, target_predict_select 75 [0, 0, 0, 0, 0, 0, 0, 0, 1] = some (h, r) ∧
      r = min (75 / 10) 8 + 1 := by
  obtain ⟨h, r, hsel, _, _, _, h4⟩ :=
    tie_rule 75 [0, 0, 0, 0, 0, 0, 0, 0, 1] (by decide) rfl
  have hv : target_predict_select 75 [0, 0, 0, 0, 0, 0, 0, 0, 1]
      = some ([0, 0, 0, 0, 0, 0, 0, 1, 1], 8) := by decide
  rw [hv] at hsel
  cases hsel
  exact ⟨_, _, hv, h4 (by decide) (by decide) (by decide) (by decide)⟩

/-- C17: for every load in `0..100` and every nine-bucket histogram `h0`,
`target_predict_policy` selects the bucket `d = min (load/10) 8` (so every load
in `[80,100]` goes to bucket 8) without reading or writing outside the indices
`0..8`; the histogram afterwards has nine buckets, differs from `h0` only at
`d`, where the count was incremented by one (in 32-bit signed arithmetic:
exactly `h0[d] + 1` unless `h0[d]` is `INT_MAX`); and the response index `r` is
one of `d - 1`, `d`, `d + 1`, lies in `0..8`, and its count is the maximum of
the counts of `d` and of the neighbours of `d` that exist. -/
theorem select_rule (load : Nat) (h0 : List Int) (hl : load ≤ 100) (hh : h0.length = 9) :
    (80 ≤ load → min (load / 10) 8 = 8) ∧ (load < 80 → min (load / 10) 8 = load / 10) ∧
    ∃ h r, target_predict_select load h0 = some (h, r) ∧ h.length = 9 ∧
      h.getD (min (load / 10) 8) 0 = wrap32 (h0.getD (min (load / 10) 8) 0 + 1) ∧
      (-2147483648 ≤ h0.getD (min (load / 10) 8) 0 →
        h0.getD (min (load / 10) 8) 0 < 2147483647 →
        h.getD (min (load / 10) 8) 0 = h0.getD (min (load / 10) 8) 0 + 1) ∧
      (∀ i, i ≠ min (load / 10) 8 → h.getD i 0 = h0.getD i 0) ∧
      r ≤ 8 ∧
      (r + 1 = min (load / 10) 8 ∨ r = min (load / 10) 8 ∨ r = min (load / 10) 8 + 1) ∧
      (∀ i, i ≤ 8 →
        (i + 1 = min (load / 10) 8 ∨ i = min (load / 10) 8 ∨ i = min (load / 10) 8 + 1) →
        h.getD i 0 ≤ h.getD r 0) := by
  refine ⟨fun h => by omega, fun h => by omega, ?_⟩
  obtain ⟨a0, a1, a2, a3, a4, a5, a6, a7, a8, rfl⟩ := list_of_length_nine h0 hh
  have hd : load / 10 ≤ 10 := by omega
  unfold target_predict_select
  generalize load / 10 = d at hd
  have hw : ∀ x : Int, -2147483648 ≤ x → x < 2147483647 → wrap32 (x + 1) = x + 1 :=
    fun x h1 h2 => wrap32_eq_self (x + 1) (by omega) (by omega)
  have hget : ∀ (l : List Int) (i : Nat), i ≠ 0 → ∀ a b : Int,
      (a :: l).getD i 0 = (b :: l).getD i 0 := by
    intro l i hi a b
    cases i with
    | zero => exact absurd rfl hi
    | succ k => rfl
  interval_cases d <;> simp [cpu_load_incr] <;> split_ifs <;>
    refine ⟨_, _, ⟨rfl, rfl⟩, rfl, rfl, hw _, ?_, by norm_num, by norm_num, ?_⟩
  all_goals first
    | (intro i hi
       match i, hi with
       | 0, _ | 1, _ | 2, _ | 3, _ | 4, _ | 5, _ | 6, _ | 7, _ | 8, _ => first | rfl | exact absurd rfl ‹_›
       | (k + 9), _ => rfl)
    | (intro i hi hor
       interval_cases i <;> simp at hor ⊢ <;> omega)

/-- Witness of `select_rule`: the initial histogram at load 75. -/
theorem select_rule_witness :
    ∃ h r, target_predict_select 75 [0, 0, 0, 0, 0, 0, 0, 0, 1] = some (h, r) ∧
      h.length = 9 ∧ r ≤ 8 := by
  obtain ⟨h, r, hsel, hlen, _, _, _, hr, _, _⟩ :=
    (select_rule 75 [0, 0, 0, 0, 0, 0, 0, 0, 1] (by decide) rfl).2.2
  exact ⟨h, r, hsel, hlen, hr⟩

/-! ## The UP decision -/

/-- C18: on a platform where every core of `cpu_series` exists
(`NR_CPUS` at least the length of `cpu_series`), for every state with
activation index `i` such that `i + 1` is a valid position of `cpu_series`, a
tick whose policy decision is UP completes, with `c = cpu_series[i + 1]`: if
`c ≥ max_cpus` core `c` is taken offline, no core is brought online and the
index is `i` afterwards; if `c < max_cpus` core `c` is brought online and the
index is `i + 1` afterwards. Either way the state ends IDLE and the tick is
pending again (at `sample_rate` when it was not pending). The suspend flag
plays no part. Moreover no tick at all, whatever its decision, brings online a
core whose id is `max_cpus` or more. -/
theorem up_tick_effect (NR_CPUS nr_cpu_ids l1 l2 : Nat) (s s1 : Gov) (c : Nat)
    (hNR : cpu_series.length ≤ NR_CPUS)
    (hpol : update_xplug_state l1 l2 s = some s1) (hup : s1.xplug_state = XPLUG_STATE.UP)
    (hc : cpu_series_at (s.curr_index + 1) = some c) :
    (∃ t, xplug_work_fn NR_CPUS nr_cpu_ids l1 l2 s = some t ∧
      (s.max_cpus ≤ c → t.online = cpu_down c s.online ∧ t.curr_index = s.curr_index) ∧
      (c < s.max_cpus → t.online = cpu_up c s.online ∧ t.curr_index = s.curr_index + 1) ∧
      t.xplug_state = XPLUG_STATE.IDLE ∧ t.xplug_work.isSome = true ∧
      (s.xplug_work = none → t.xplug_work = some s.sample_rate)) ∧
    (∀ (m1 m2 : Nat) (u v : Gov), xplug_work_fn NR_CPUS nr_cpu_ids m1 m2 u = some v →
      ∀ x ∈ v.online, x ∉ u.online → x < u.max_cpus) := by
  refine ⟨?_, fun m1 m2 u v h => xplug_work_fn_new_online NR_CPUS nr_cpu_ids m1 m2 u v h⟩
  obtain ⟨ho, hmax, _, hi, hw, hsr⟩ := update_xplug_state_frame l1 l2 s s1 hpol
  obtain ⟨h0, h6, hc6⟩ := cpu_series_at_some _ c hc
  have hlen : cpu_series.length = 6 := rfl
  have hcNR : c < NR_CPUS := by omega
  have hwrap : wrap32 (s.curr_index + 1) = s.curr_index + 1 :=
    wrap32_eq_self _ (by omega) (by omega)
  have hback : wrap32 (s.curr_index + 1 - 1) = s.curr_index :=
    (wrap32_eq_self _ (by omega) (by omega)).trans (by ring)
  refine ⟨xplug_transition NR_CPUS c true true
    { s1 with curr_index := s.curr_index + 1, xplug_state := XPLUG_STATE.IDLE }, ?_, ?_, ?_, ?_, ?_, ?_⟩
  · unfold xplug_work_fn
    simp only [hpol, hup, hi, hwrap, hc]
  · intro hge
    unfold xplug_transition
    simp only [hcNR, if_true, hmax, ge_iff_le, hge, not_lt.mpr hge, if_false, ho, hback]
    exact ⟨trivial, trivial⟩
  · intro hlt
    unfold xplug_transition
    simp only [hcNR, if_true, hmax, ge_iff_le, not_le.mpr hlt, hlt, if_false, ho]
    exact ⟨trivial, trivial⟩
  · unfold xplug_transition
    simp only [hcNR, if_true]
    split_ifs <;> rfl
  · unfold xplug_transition
    simp only [hcNR, if_true, queue_delayed_work_on]
    split_ifs <;> simp only [] <;> cases s1.xplug_work <;> rfl
  · intro hnone
    unfold xplug_transition
    simp only [hcNR, if_true, queue_delayed_work_on, hw, hnone, hsr]
    split_ifs <;> rfl

/-- Witness of `up_tick_effect`: the default configuration with the counter at
-24 and index 0, at load 100: the tick decides UP, reads
`cpu_series[1] = 1` and brings core 1 online. -/
theorem up_tick_effect_witness :
    ∃ t, xplug_work_fn 6 6 100 0
        { xplug_init {0} with check_count := -24, xplug_work := none } = some t ∧
      t.online = cpu_up 1 {0} ∧ t.curr_index = 1 ∧
      t.xplug_state = XPLUG_STATE.IDLE ∧ t.xplug_work = some 250 := by
  obtain ⟨t, ht, _, hlt, hst, _, hq⟩ :=
    (up_tick_effect 6 6 100 0 { xplug_init {0} with check_count := -24, xplug_work := none }
      (target_load_policy 100 { xplug_init {0} with check_count := -24, xplug_work := none })
      1 (by decide) (by rfl) (by decide) (by decide)).1
  exact ⟨t, ht, (hlt (by decide)).1, (hlt (by decide)).2, hst, hq rfl⟩

end XPlug
